import Mathlib

set_option maxRecDepth 40000

/-!
Verification of the interactive Shopify theme setup script (setup.ts).

The script is a linear CLI wizard: it asks a sequence of questions on stdin
(building a `SetupConfig`), asks for confirmation, and then runs nineteen
side-effecting steps in a fixed order (file writes, package installs, git
operations).  This file gives a shallow embedding of that script:

* JS string primitives used by the script (`includes`, first-occurrence
  `replace`, suffix stripping, `parseInt`) are modelled over `List Char`;
* `prompt`/`select` become functions consuming a list of stdin lines;
* `askQuestions` is embedded question by question;
* the filesystem is an association list of paths to contents, the setup
  steps become functions `World → StepOut` where `StepOut` distinguishes
  normal return from an escaping exception, and `main`'s step sequence is
  folded by `runSteps`.

Contents written by the script are transcribed verbatim from the template
literals in setup.ts (braces and apostrophes appear as \x7b, \x7d, \x27
escapes).  `package.json` is modelled structurally (`PackageJson`), with
JSON serialization abstracted as the identity, because the script later
re-reads and updates it.
-/

namespace ShopifySetup

/-! ## JS string primitives -/

/-- Index of the first occurrence of `pat` in `s` (`String.prototype.indexOf`):
`none` when `pat` does not occur. -/
def findSub (pat : List Char) : List Char → Option Nat
  | [] => if pat.isPrefixOf ([] : List Char) then some 0 else none
  | a :: t => if pat.isPrefixOf (a :: t) then some 0 else (findSub pat t).map (· + 1)

/-- `s.includes(pat)` of JS. -/
def strContains (s pat : String) : Bool := (findSub pat.data s.data).isSome

/-- `s.replace(pat, repl)` of JS with a string pattern: replaces only the
first occurrence; returns `s` unchanged when `pat` does not occur. -/
def replaceFirst (s pat repl : String) : String :=
  match findSub pat.data s.data with
  | none => s
  | some i => ⟨s.data.take i ++ repl.data ++ s.data.drop (i + pat.data.length)⟩

/-- `s.endsWith(suf)` of JS. -/
def strEndsWith (s suf : String) : Bool := suf.data.isSuffixOf s.data

/-- `s.replace(/\.myshopify\.com$/, "")` of setup.ts:219 — strip the suffix
`.myshopify.com` when present. -/
def dropMyshopifySuffix (s : String) : String :=
  if strEndsWith s ".myshopify.com" then
    ⟨s.data.take (s.data.length - ".myshopify.com".data.length)⟩
  else s

/-- JS `s.trim()`: strip leading and trailing whitespace.  (Defined over
the character list so that it reduces definitionally; `String.trim` is
implemented on byte positions by well-founded recursion.) -/
def jsTrim (s : String) : String :=
  ⟨((s.data.dropWhile Char.isWhitespace).reverse.dropWhile Char.isWhitespace).reverse⟩

/-- JS `s.toLowerCase()` (over ASCII). -/
def jsToLower (s : String) : String := ⟨s.data.map Char.toLower⟩

/-- Value of a digit character in the given radix (as JS `parseInt` accepts:
decimal digits and letters). -/
def digitVal (radix : Nat) (c : Char) : Option Nat :=
  let v : Option Nat :=
    if c.isDigit then some (c.toNat - 48)
    else if 'a' ≤ c ∧ c ≤ 'z' then some (c.toNat - 87)
    else if 'A' ≤ c ∧ c ≤ 'Z' then some (c.toNat - 55)
    else none
  match v with
  | some n => if n < radix then some n else none
  | none => none

/-- Digit values of the longest digit-only prefix of `cs`. -/
def digitRun (radix : Nat) (cs : List Char) : List Nat :=
  (cs.takeWhile (fun c => (digitVal radix c).isSome)).filterMap (digitVal radix)

/-- JS `parseInt(s)` with no radix argument: skip leading whitespace, read an
optional sign, auto-detect radix 16 on a `0x`/`0X` marker, then read the
longest digit prefix; `none` models `NaN` (no digits). -/
def jsParseInt (s : String) : Option Int :=
  let cs := s.data.dropWhile Char.isWhitespace
  let signed : Int × List Char :=
    match cs with
    | '-' :: t => (-1, t)
    | '+' :: t => (1, t)
    | _ => (1, cs)
  let based : Nat × List Char :=
    match signed.2 with
    | '0' :: 'x' :: t => (16, t)
    | '0' :: 'X' :: t => (16, t)
    | _ => (10, signed.2)
  let ds := digitRun based.1 based.2
  if ds = [] then none
  else some (signed.1 * (ds.foldl (fun acc d => acc * based.1 + d) 0 : Nat))

/-! ## prompt and select (setup.ts:35-73)

`prompt` reads one line from stdin and returns it trimmed; when stdin is
exhausted it returns the empty string.  `select` prompts repeatedly until
`parseInt` of the (trimmed) answer lies in `[1, options.length]`; it then
resolves with `choice - 1`.  We model stdin as a list of lines; an exhausted
or forever-invalid stdin makes `select` retry forever, modelled as `none`. -/

/-- One `prompt` call: consume a line (trimmed); an exhausted stdin yields "". -/
def promptC : List String → String × List String
  | [] => ("", [])
  | a :: t => (jsTrim a, t)

/-- The validation of one `select` answer (setup.ts:64-66): `parseInt`, then
the range check `1 <= choice && choice <= options.length`; `some (choice-1)`
on success. -/
def validChoice (len : Nat) (answer : String) : Option Nat :=
  match jsParseInt answer with
  | none => none
  | some c => if 1 ≤ c ∧ c ≤ (len : Int) then some (c - 1).toNat else none

/-- Result of a resolving `select` call: how many prompts it issued, the
resolved zero-based index, and the remaining stdin. -/
structure SelectResult where
  prompts : Nat
  index : Nat
  rest : List String
deriving DecidableEq

/-- `select` (setup.ts:56-73) over a finite stdin: skip invalid answers
(retrying), resolve at the first valid one; `none` when no answer in the
list is valid (the real loop would then retry forever and never resolve). -/
def selectRun (len : Nat) : List String → Option SelectResult
  | [] => none
  | raw :: t =>
    match validChoice len (jsTrim raw) with
    | some i => some ⟨1, i, t⟩
    | none => (selectRun len t).map (fun r => ⟨r.prompts + 1, r.index, r.rest⟩)

/-! ## The configuration (setup.ts:75-89) -/

inductive StylingApproach | css | scss | postcss | tailwind
deriving DecidableEq

inductive JsApproach | vanilla | typescript
deriving DecidableEq

inductive PackageManager | bun | npm | pnpm | yarn
deriving DecidableEq

inductive TomlApproach | file | cli | skip
deriving DecidableEq

inductive LintingSetup | eslintPrettier | themeCheck | skip
deriving DecidableEq

/-- One entry of `shopify theme list --json`. -/
structure ShopTheme where
  id : String
  name : String
  role : String
deriving DecidableEq

/-- `SetupConfig` (setup.ts:75-89).  Optional fields that the script always
populates before returning are plain fields here. -/
structure SetupConfig where
  projectName : String
  stylingApproach : StylingApproach
  jsApproach : JsApproach
  packageManager : PackageManager
  shopifyEnvironment : String
  themeId : Option String
  enableTunnel : Bool
  projectType : String
  projectDescription : String
  tomlApproach : TomlApproach
  storeUrl : String
  lintingSetup : LintingSetup
  gitHooks : Bool
deriving DecidableEq

/-- JS `a || d` for strings: `d` when `a` is empty (falsy). -/
def jsOr (a d : String) : String := if a = "" then d else a

/-- JS `a || d` for a nullable string: `d` when `a` is `null` or empty. -/
def jsOrOpt (a : Option String) (d : String) : String :=
  match a with
  | some s => jsOr s d
  | none => d

/-! ## askQuestions (setup.ts:102-348) -/

def stylingMap : List StylingApproach := [.css, .scss, .postcss, .tailwind]

def pmMap : List PackageManager := [.bun, .npm, .pnpm, .yarn]

def tomlMap : List TomlApproach := [.file, .cli, .skip]

def lintMap : List LintingSetup := [.eslintPrettier, .themeCheck, .skip]

def projectTypeMap : List String :=
  ["e-commerce", "headless", "b2b", "subscription", "custom"]

/-- Store URL normalization (setup.ts:218-220): when the entered URL is
non-empty and does not contain ".myshopify.com", strip a trailing
".myshopify.com" (a no-op in that branch) and append ".myshopify.com". -/
def normalizeStoreUrl (storeUrl : String) : String :=
  if storeUrl ≠ "" ∧ strContains storeUrl ".myshopify.com" = false then
    dropMyshopifySuffix storeUrl ++ ".myshopify.com"
  else storeUrl

/-- Environment of the run: the themes `shopify theme list --json` yields
(empty on error — `getShopifyThemes` catches and returns `[]`), and the
success of each external command, keyed by a rendering of the command. -/
structure Env where
  themes : List ShopTheme
  cmdOk : String → Bool

/-- Outcome of `askQuestions`: `process.exit(1)` on an empty project name,
divergence when some `select` never receives a valid answer, or the built
configuration together with the unconsumed stdin. -/
inductive AskResult
  | exited1
  | diverged
  | config (cfg : SetupConfig) (rest : List String)
deriving DecidableEq

/-- Run one `select` and continue: `select` that never resolves makes the
whole Q&A diverge. -/
def bindSel (len : Nat) (stdin : List String)
    (k : Nat → List String → AskResult) : AskResult :=
  match selectRun len stdin with
  | none => .diverged
  | some r => k r.index r.rest

/-- Final questions (setup.ts:317-347): project type and description. -/
def askTail (base : SetupConfig) (s : List String) : AskResult :=
  bindSel 5 s fun projectType s1 =>
  let selectedProjectType := projectTypeMap.getD projectType "e-commerce"
  let pd := promptC s1
  .config { base with
              projectType := selectedProjectType
              projectDescription := jsOr (jsTrim pd.1) "" } pd.2

/-- Theme selection (setup.ts:273-309): when themes were fetched, offer them
plus a skip entry; choosing a theme asks for an environment name (defaulting
to "development"). -/
def askThemes (env : Env) (base : SetupConfig) (s : List String) : AskResult :=
  if env.themes.length > 0 then
    bindSel (env.themes.length + 1) s fun themeChoice s1 =>
    if themeChoice < env.themes.length then
      let tid := (env.themes.getD themeChoice ⟨"", "", ""⟩).id
      let en := promptC s1
      askTail { base with
                  themeId := some tid
                  shopifyEnvironment := jsOr (jsTrim en.1) "development" } en.2
    else
      askTail base s1
  else
    askTail base s

/-- Questions 2-8 (setup.ts:117-271): styling, JS approach, package manager,
tunnel, TOML approach (with the store URL prompt on "file"), linting, hooks. -/
def askRest (env : Env) (projectName : String) (s : List String) : AskResult :=
  bindSel 4 s fun stylingChoice s1 =>
  let stylingApproach := stylingMap.getD stylingChoice .css
  bindSel 2 s1 fun jsChoice s2 =>
  let jsApproach : JsApproach := if jsChoice = 0 then .vanilla else .typescript
  bindSel 4 s2 fun pmChoice s3 =>
  let packageManager := pmMap.getD pmChoice .bun
  bindSel 2 s3 fun tunnelChoice s4 =>
  let enableTunnel := tunnelChoice = 0
  bindSel 3 s4 fun tomlChoice s5 =>
  let tomlApproach := tomlMap.getD tomlChoice .file
  let su : String × List String :=
    if tomlApproach = .file then
      let raw := promptC s5
      (normalizeStoreUrl raw.1, raw.2)
    else ("", s5)
  bindSel 3 su.2 fun lintChoice s6 =>
  let lintingSetup := lintMap.getD lintChoice .eslintPrettier
  bindSel 2 s6 fun hooksChoice s7 =>
  let gitHooks := hooksChoice = 0
  askThemes env
    { projectName := projectName
      stylingApproach := stylingApproach
      jsApproach := jsApproach
      packageManager := packageManager
      shopifyEnvironment := "development"
      themeId := none
      enableTunnel := enableTunnel
      projectType := ""
      projectDescription := ""
      tomlApproach := tomlApproach
      storeUrl := jsOr (jsTrim su.1) ""
      lintingSetup := lintingSetup
      gitHooks := gitHooks } s7

/-- `askQuestions` (setup.ts:102-348): the first prompt asks the project
name; an empty answer is fatal (`process.exit(1)`, setup.ts:112-115). -/
def askQuestions (env : Env) (stdin : List String) : AskResult :=
  let pn := promptC stdin
  if pn.1 = "" then .exited1 else askRest env pn.1 pn.2

/-! ## Filesystem, world and steps (setup.ts:350-1698)

The filesystem is an association list from paths to contents; `fsWrite`
overwrites in place (order-stable), so writing equal content is literally
the identity on the list.  External commands are modelled as effect-free
successes/failures given by `Env.cmdOk`.  A step is a function
`World → StepOut`; `StepOut.err` models an exception escaping the step
(the world carries the side effects already performed). -/

/-- `package.json` as a structure; `JSON.stringify`/`JSON.parse` are
abstracted as the identity.  `packageManager` is omitted (`undefined`)
unless the manager is Bun (setup.ts:437). -/
structure PackageJson where
  name : String
  version : String
  type : String
  packageManager : Option String
  scripts : List (String × String)
deriving DecidableEq

/-- Content of a file on disk. -/
inductive FileContent
  | text (s : String)
  | packageJson (pj : PackageJson)
deriving DecidableEq

abbrev FS := List (String × FileContent)

/-- Overwrite-in-place write; appends at the end for a new path. -/
def fsWrite : FS → String → FileContent → FS
  | [], p, c => [(p, c)]
  | (q, d) :: rest, p, c =>
    if q = p then (p, c) :: rest else (q, d) :: fsWrite rest p c

def fsRead : FS → String → Option FileContent
  | [], _ => none
  | (q, d) :: rest, p => if q = p then some d else fsRead rest p

/-- Sequence of writes, first pair first. -/
def fsWrites (fs : FS) : List (String × FileContent) → FS
  | [] => fs
  | (p, c) :: rest => fsWrites (fsWrite fs p c) rest

/-- The mutable state a step sees: the filesystem and the remaining stdin
(consumed further by `createCoreFiles`, which prompts). -/
structure World where
  files : FS
  stdin : List String
deriving DecidableEq

/-- Result of one step: normal return, or an exception escaping the step
(`err`); either way the world reflects the effects performed so far. -/
inductive StepOut
  | ok (w : World)
  | err (w : World)
deriving DecidableEq

def StepOut.world : StepOut → World
  | .ok w => w
  | .err w => w

def StepOut.isOk : StepOut → Bool
  | .ok _ => true
  | .err _ => false

abbrev Step := World → StepOut

abbrev NamedStep := String × Step

def wWrite (w : World) (p : String) (c : FileContent) : World :=
  { w with files := fsWrite w.files p c }

def wWrites (w : World) (ps : List (String × FileContent)) : World :=
  { w with files := fsWrites w.files ps }

/-- A step that only writes the given files, in order. -/
def writeStep (ps : List (String × FileContent)) : Step := fun w => .ok (wWrites w ps)

/-! ### Command renderings -/

def pmName : PackageManager → String
  | .bun => "bun"
  | .npm => "npm"
  | .pnpm => "pnpm"
  | .yarn => "yarn"

/-- The dev-dependency install command of the chosen manager
(setup.ts:413-422, 1094-1103, 1239-1248). -/
def addDevCmd (pm : PackageManager) (deps : List String) : String :=
  match pm with
  | .bun => "bun add -d " ++ String.intercalate " " deps
  | .npm => "npm install --save-dev " ++ String.intercalate " " deps
  | .pnpm => "pnpm add -D " ++ String.intercalate " " deps
  | .yarn => "yarn add -D " ++ String.intercalate " " deps

/-- The build command of the chosen manager (setup.ts:1519-1527). -/
def buildCmd : PackageManager → String
  | .bun => "bun run build"
  | .npm => "npm run build"
  | .pnpm => "pnpm run build"
  | .yarn => "yarn build"

/-- `baseDeps` (setup.ts:389-406): Vite is pinned to 6.0.8 when the tunnel
is enabled; sass / tailwindcss and the TypeScript deps are conditional. -/
def baseDeps (cfg : SetupConfig) : List String :=
  [if cfg.enableTunnel then "vite@6.0.8" else "vite",
   "vite-plugin-shopify", "postcss", "autoprefixer", "npm-run-all",
   "@shopify/theme-check-node"]
  ++ (if cfg.stylingApproach = .scss then ["sass"]
      else if cfg.stylingApproach = .tailwind then ["tailwindcss"] else [])
  ++ (if cfg.jsApproach = .typescript then ["typescript", "@types/node"] else [])

/-- ESLint/Prettier dependencies (setup.ts:1080-1090). -/
def lintDeps (cfg : SetupConfig) : List String :=
  ["eslint", "prettier", "eslint-config-prettier", "eslint-plugin-prettier",
   "@eslint/js"]
  ++ (if cfg.jsApproach = .typescript then
        ["@typescript-eslint/eslint-plugin", "@typescript-eslint/parser"] else [])

/-! ### File contents (transcribed from the template literals) -/

/-- `packageJson` (setup.ts:433-457). -/
def basePackageJson (cfg : SetupConfig) : PackageJson where
  name := cfg.projectName ++ "-shopify"
  version := "1.0.0"
  type := "module"
  packageManager := if cfg.packageManager = .bun then some "bun@1.3.0" else none
  scripts :=
    [("dev", "run-p -sr \"shopify:dev -- \x7b@\x7d\" \"vite:dev\" --"),
     ("dev:staging", "run-p -sr \"shopify:dev:staging -- \x7b@\x7d\" \"vite:dev\" --"),
     ("dev:production", "run-p -sr \"shopify:dev:production -- \x7b@\x7d\" \"vite:dev\" --"),
     ("build", pmName cfg.packageManager ++ " vite:build"),
     ("preview", "vite preview"),
     ("deploy", "run-s \"vite:build\" \"shopify:push -- \x7b@\x7d\" --"),
     ("deploy:staging", "run-s \"vite:build\" \"shopify:push:staging -- \x7b@\x7d\" --"),
     ("deploy:production", "run-s \"vite:build\" \"shopify:push:production -- \x7b@\x7d\" --"),
     ("shopify:dev", "shopify theme dev --environment development"),
     ("shopify:dev:staging", "shopify theme dev --environment staging"),
     ("shopify:dev:production", "shopify theme dev --environment production"),
     ("shopify:push", "shopify theme push --environment development"),
     ("shopify:push:staging", "shopify theme push --environment staging"),
     ("shopify:push:production", "shopify theme push --environment production"),
     ("vite:dev", "vite"),
     ("vite:build", "vite build"),
     ("clean", "rm -rf dist assets/storefront.js assets/custom_styling.css")]

-- vite.config.js (setup.ts:466-529); the three interpolations are the
-- tunnel plugin option, the tunnel allowedHosts line and the SCSS block.
def viteSeg1 : String :=
  "import \x7b fileURLToPath, URL \x7d from \x27node:url\x27;\n" ++
  "import \x7b defineConfig \x7d from \x27vite\x27;\n" ++
  "import shopify from \x27vite-plugin-shopify\x27;\n" ++
  "\n" ++
  "export default defineConfig(() => (\x7b\n" ++
  "  plugins: [\n" ++
  "    shopify(\x7b\n" ++
  "      themeRoot: \x27./\x27,\n" ++
  "      sourceCodeDir: \x27frontend\x27,\n" ++
  "      entrypointsDir: \x27frontend/entrypoints\x27,\n" ++
  "      additionalEntrypoints: [],"

def viteTunnelPluginLine : String :=
  "\n      tunnel: true, // Enable Cloudflare tunnel for theme editor development"

def viteSeg2 : String :=
  "\n" ++
  "    \x7d),\n" ++
  "  ],\n" ++
  "  resolve: \x7b\n" ++
  "    alias: \x7b\n" ++
  "      \x27~\x27: fileURLToPath(new URL(\x27./frontend\x27, import.meta.url)),\n" ++
  "    \x7d,\n" ++
  "  \x7d,\n" ++
  "  build: \x7b\n" ++
  "    emptyOutDir: false,\n" ++
  "    manifest: true,\n" ++
  "    rollupOptions: \x7b\n" ++
  "      output: \x7b\n" ++
  "        entryFileNames: \x27[name].js\x27,\n" ++
  "        assetFileNames: \x27[name][extname]\x27,\n" ++
  "        chunkFileNames: \x27[name].js\x27,\n" ++
  "      \x7d\n" ++
  "    \x7d\n" ++
  "  \x7d,\n" ++
  "  server: \x7b"

def viteAllowedHostsLine : String :=
  "\n    allowedHosts: \x27all\x27, // Required for Cloudflare tunnel"

def viteSeg3 : String :=
  "\n" ++
  "    headers: \x7b\n" ++
  "      \"Cache-Control\": \"no-store, no-cache, must-revalidate, proxy-revalidate, max-age=0\",\n" ++
  "      \"Access-Control-Allow-Origin\": \"*\",\n" ++
  "      \"Access-Control-Allow-Methods\": \"GET, HEAD, PUT, POST, PATCH, DELETE\",\n" ++
  "      \"Access-Control-Allow-Headers\": \"Content-Type, Authorization\",\n" ++
  "      \"Access-Control-Allow-Credentials\": \"true\"\n" ++
  "    \x7d,\n" ++
  "    cors: \x7b\n" ++
  "      origin: [\"*\"],\n" ++
  "      methods: [\"GET\", \"HEAD\", \"PUT\", \"POST, PATCH\", \"DELETE\"],\n" ++
  "      credentials: true,\n" ++
  "      allowedHeaders: [\"Content-Type\", \"Authorization\"]\n" ++
  "    \x7d\n" ++
  "  \x7d,\n" ++
  "  css: \x7b\n" ++
  "    devSourcemap: true,\n" ++
  "    modules: \x7b\n" ++
  "      localsConvention: \x27camelCase\x27\n" ++
  "    \x7d,"

def viteScssBlock : String :=
  "\n" ++
  "    preprocessorOptions: \x7b\n" ++
  "      scss: \x7b\n" ++
  "        additionalData: \x27@use \"sass:math\"; @use \"sass:map\";\x27,\n" ++
  "        api: \x27modern-compiler\x27,\n" ++
  "        quietDeps: true,\n" ++
  "        logger: \x7b\n" ++
  "          warn: () => \x7b \x7d\n" ++
  "        \x7d\n" ++
  "      \x7d\n" ++
  "    \x7d"

def viteSeg4 : String :=
  "\n" ++
  "  \x7d\n" ++
  "\x7d));\n" ++
  ""

def viteConfigContent (cfg : SetupConfig) : String :=
  viteSeg1 ++ (if cfg.enableTunnel then viteTunnelPluginLine else "") ++
  viteSeg2 ++ (if cfg.enableTunnel then viteAllowedHostsLine else "") ++
  viteSeg3 ++ (if cfg.stylingApproach = .scss then viteScssBlock else "") ++
  viteSeg4

-- postcss.config.js (setup.ts:543-558)
def postcssDefaultContent : String :=
  "export default \x7b\n" ++
  "  plugins: \x7b\n" ++
  "    autoprefixer: \x7b\x7d,\n" ++
  "  \x7d,\n" ++
  "\x7d\n" ++
  ""

def postcssTailwindContent : String :=
  "export default \x7b\n" ++
  "  plugins: \x7b\n" ++
  "    tailwindcss: \x7b\x7d,\n" ++
  "    autoprefixer: \x7b\x7d,\n" ++
  "  \x7d,\n" ++
  "\x7d\n" ++
  ""

-- .gitignore (setup.ts:567-619)
def gitignoreContent : String :=
  "# Node.js dependencies\n" ++
  "node_modules/\n" ++
  "npm-debug.log*\n" ++
  "yarn-debug.log*\n" ++
  "yarn-error.log*\n" ++
  "pnpm-debug.log*\n" ++
  "lerna-debug.log*\n" ++
  "\n" ++
  "# Environment variables\n" ++
  ".env\n" ++
  ".env.local\n" ++
  ".env.*.local\n" ++
  ".env.development.local\n" ++
  ".env.test.local\n" ++
  ".env.production.local\n" ++
  "\n" ++
  "# Vite\n" ++
  "dist/\n" ++
  "dist-ssr/\n" ++
  "*.local\n" ++
  ".vite/\n" ++
  "\n" ++
  "# Editor directories and files\n" ++
  ".vscode/*\n" ++
  "!.vscode/extensions.json\n" ++
  "!.vscode/settings.json\n" ++
  ".idea/\n" ++
  ".DS_Store\n" ++
  "*.suo\n" ++
  "*.ntvs*\n" ++
  "*.njsproj\n" ++
  "*.sln\n" ++
  "*.sw?\n" ++
  "\n" ++
  "# OS files\n" ++
  "Thumbs.db\n" ++
  ".DS_Store\n" ++
  "*~\n" ++
  ".Spotlight-V100\n" ++
  ".Trashes\n" ++
  "\n" ++
  "# Shopify theme files\n" ++
  "config/settings_data.json\n" ++
  "\n" ++
  "# Build artifacts\n" ++
  "*.log\n" ++
  "*.tsbuildinfo\n" ++
  "\n" ++
  "# Lock files (keep only one)\n" ++
  "package-lock.json\n" ++
  "yarn.lock\n" ++
  "pnpm-lock.yaml\n" ++
  ""

-- .shopifyignore (setup.ts:628-681)
def shopifyignoreContent : String :=
  "# Shopify Ignore - Files to exclude from theme uploads\n" ++
  "\n" ++
  "# Node modules\n" ++
  "node_modules/\n" ++
  "\n" ++
  "# Source files (Vite will build these)\n" ++
  "frontend/\n" ++
  "\n" ++
  "# Config files\n" ++
  "vite.config.js\n" ++
  "postcss.config.js\n" ++
  "tailwind.config.js\n" ++
  "package.json\n" ++
  "bun.lockb\n" ++
  "package-lock.json\n" ++
  "yarn.lock\n" ++
  "pnpm-lock.yaml\n" ++
  "\n" ++
  "# Build configs\n" ++
  ".vite/\n" ++
  "tsconfig.json\n" ++
  ".eslintrc*\n" ++
  ".prettierrc*\n" ++
  "\n" ++
  "# Git files\n" ++
  ".git/\n" ++
  ".gitignore\n" ++
  ".gitattributes\n" ++
  "\n" ++
  "# CI/CD\n" ++
  ".github/\n" ++
  "\n" ++
  "# Documentation\n" ++
  "README.md\n" ++
  "CLAUDE.md\n" ++
  "project_setup.md\n" ++
  "*.md\n" ++
  "\n" ++
  "# Setup script\n" ++
  "setup.ts\n" ++
  "\n" ++
  "# Environment files\n" ++
  ".env*\n" ++
  "\n" ++
  "# Editor directories\n" ++
  ".vscode/\n" ++
  ".idea/\n" ++
  "*.swp\n" ++
  "*.swo\n" ++
  "\n" ++
  "# OS files\n" ++
  ".DS_Store\n" ++
  "Thumbs.db\n" ++
  ""

-- .github/workflows/build.yml (setup.ts:690-729)
def workflowSeg1 : String :=
  "name: Build Vite Assets\n" ++
  "\n" ++
  "on:\n" ++
  "  push:\n" ++
  "    branches: [main, develop]\n" ++
  "  pull_request:\n" ++
  "    branches: [main, develop]\n" ++
  "\n" ++
  "jobs:\n" ++
  "  build:\n" ++
  "    runs-on: ubuntu-latest\n" ++
  "\n" ++
  "    steps:\n" ++
  "      - name: Checkout code\n" ++
  "        uses: actions/checkout@v4\n" ++
  "\n" ++
  "      - name: Setup "

def workflowSeg4 : String :=
  "\n" ++
  "\n" ++
  "      - name: Install dependencies\n" ++
  "        run: "

def workflowSeg5 : String :=
  " install\n" ++
  "\n" ++
  "      - name: Build Vite assets\n" ++
  "        run: "

def workflowSeg6 : String :=
  " run build\n" ++
  "\n" ++
  "      - name: Check for uncommitted changes in assets\n" ++
  "        run: |\n" ++
  "          git diff --exit-code assets/ || \\\n" ++
  "          (echo \"Error: Built assets are out of sync. Run \x27"

def workflowSeg7 : String :=
  " run build\x27 locally and commit the changes.\" && exit 1)\n" ++
  "\n" ++
  "      - name: Upload assets artifact\n" ++
  "        if: success()\n" ++
  "        uses: actions/upload-artifact@v4\n" ++
  "        with:\n" ++
  "          name: built-assets\n" ++
  "          path: assets/\n" ++
  "          retention-days: 7\n" ++
  ""

def workflowContent (cfg : SetupConfig) : String :=
  workflowSeg1 ++ (if cfg.packageManager = .bun then "Bun" else "Node.js") ++
  "\n        uses: " ++
  (if cfg.packageManager = .bun then "oven-sh/setup-bun@v1" else "actions/setup-node@v4") ++
  (if cfg.packageManager = .bun then "\n        with:\n          bun-version: latest" else "") ++
  workflowSeg4 ++ pmName cfg.packageManager ++
  workflowSeg5 ++ pmName cfg.packageManager ++
  workflowSeg6 ++ pmName cfg.packageManager ++
  workflowSeg7

-- example.shopify.theme.toml (setup.ts:1008-1024)
def exampleTomlContent : String :=
  "# Example Shopify Theme Configuration\n" ++
  "# Copy this file to shopify.theme.toml and update with your store details\n" ++
  "\n" ++
  "[environments.development]\n" ++
  "store = \"your-store.myshopify.com\"\n" ++
  "theme = \"your-theme-id\"\n" ++
  "ignore = [\".shopifyignore\"]\n" ++
  "\n" ++
  "# Additional environment examples:\n" ++
  "# [environments.staging]\n" ++
  "# store = \"your-store-staging.myshopify.com\"\n" ++
  "# theme = \"staging-theme-id\"\n" ++
  "\n" ++
  "# [environments.production]\n" ++
  "# store = \"your-store.myshopify.com\"\n" ++
  "# theme = \"live-theme-id\"\n" ++
  ""

-- shopify.theme.toml (setup.ts:1043-1061)
def themeTomlContent (envName storeUrl themeId : String) : String :=
  "# Shopify Theme Configuration\n" ++
  "# This file contains your store credentials - it will be added to .gitignore\n" ++
  "\n" ++
  "[environments." ++ envName ++ "]\n" ++
  "store = \"" ++ storeUrl ++ "\"\n" ++
  "theme = \"" ++ themeId ++ "\"\n" ++
  "ignore = [\".shopifyignore\"]\n" ++
  "\n" ++
  "# Additional environment examples (uncomment and configure as needed):\n" ++
  "# [environments.staging]\n" ++
  "# store = \"" ++ storeUrl ++ "\"\n" ++
  "# theme = \"staging-theme-id\"\n" ++
  "# ignore = [\".shopifyignore\"]\n" ++
  "\n" ++
  "# [environments.production]\n" ++
  "# store = \"" ++ storeUrl ++ "\"\n" ++
  "# theme = \"live-theme-id\"\n" ++
  "# ignore = [\".shopifyignore\"]\n" ++
  ""

-- eslint.config.js (setup.ts:1112-1167), TypeScript and vanilla variants
def eslintConfigTsContent : String :=
  "import js from \"@eslint/js\";\n" ++
  "import tseslint from \"@typescript-eslint/eslint-plugin\";\n" ++
  "import tsparser from \"@typescript-eslint/parser\";\n" ++
  "import prettier from \"eslint-plugin-prettier\";\n" ++
  "\n" ++
  "export default [\n" ++
  "  js.configs.recommended,\n" ++
  "  \x7b\n" ++
  "    files: [\"frontend/**/*.\x7bjs,ts\x7d\"],\n" ++
  "    languageOptions: \x7b\n" ++
  "      parser: tsparser,\n" ++
  "      ecmaVersion: 2022,\n" ++
  "      sourceType: \"module\",\n" ++
  "    \x7d,\n" ++
  "    plugins: \x7b\n" ++
  "      \"@typescript-eslint\": tseslint,\n" ++
  "      prettier,\n" ++
  "    \x7d,\n" ++
  "    rules: \x7b\n" ++
  "      \"prettier/prettier\": \"error\",\n" ++
  "      \"no-unused-vars\": \"off\",\n" ++
  "      \"@typescript-eslint/no-unused-vars\": [\"error\", \x7b argsIgnorePattern: \"^_\" \x7d],\n" ++
  "      \"no-console\": [\"warn\", \x7b allow: [\"warn\", \"error\"] \x7d],\n" ++
  "    \x7d,\n" ++
  "  \x7d,\n" ++
  "  \x7b\n" ++
  "    ignores: [\"assets/**\", \"node_modules/**\", \"*.config.js\"],\n" ++
  "  \x7d,\n" ++
  "];\n" ++
  ""

def eslintConfigJsContent : String :=
  "import js from \"@eslint/js\";\n" ++
  "import prettier from \"eslint-plugin-prettier\";\n" ++
  "\n" ++
  "export default [\n" ++
  "  js.configs.recommended,\n" ++
  "  \x7b\n" ++
  "    files: [\"frontend/**/*.js\"],\n" ++
  "    languageOptions: \x7b\n" ++
  "      ecmaVersion: 2022,\n" ++
  "      sourceType: \"module\",\n" ++
  "    \x7d,\n" ++
  "    plugins: \x7b\n" ++
  "      prettier,\n" ++
  "    \x7d,\n" ++
  "    rules: \x7b\n" ++
  "      \"prettier/prettier\": \"error\",\n" ++
  "      \"no-unused-vars\": [\"error\", \x7b argsIgnorePattern: \"^_\" \x7d],\n" ++
  "      \"no-console\": [\"warn\", \x7b allow: [\"warn\", \"error\"] \x7d],\n" ++
  "    \x7d,\n" ++
  "  \x7d,\n" ++
  "  \x7b\n" ++
  "    ignores: [\"assets/**\", \"node_modules/**\", \"*.config.js\"],\n" ++
  "  \x7d,\n" ++
  "];\n" ++
  ""

-- .prettierrc (setup.ts:1173-1182)
def prettierrcContent : String :=
  "\x7b\n" ++
  "  \"semi\": true,\n" ++
  "  \"singleQuote\": true,\n" ++
  "  \"tabWidth\": 2,\n" ++
  "  \"trailingComma\": \"es5\",\n" ++
  "  \"printWidth\": 100,\n" ++
  "  \"bracketSpacing\": true,\n" ++
  "  \"arrowParens\": \"always\"\n" ++
  "\x7d\n" ++
  ""

-- .prettierignore (setup.ts:1187-1194)
def prettierignoreContent : String :=
  "# Prettier ignore\n" ++
  "assets/\n" ++
  "node_modules/\n" ++
  "*.liquid\n" ++
  "*.json\n" ++
  "*.md\n" ++
  "bun.lockb\n" ++
  ""

-- .theme-check.yml (setup.ts:1202-1220)
def themeCheckContent : String :=
  "# Theme Check Configuration\n" ++
  "# https://shopify.dev/docs/themes/tools/theme-check\n" ++
  "\n" ++
  "root: .\n" ++
  "extends: :theme-app-extension\n" ++
  "\n" ++
  "# Ignore patterns\n" ++
  "ignore:\n" ++
  "  - node_modules/**\n" ++
  "  - frontend/**\n" ++
  "\n" ++
  "# Custom rules\n" ++
  "MatchingTranslations:\n" ++
  "  enabled: true\n" ++
  "\n" ++
  "RemoteAsset:\n" ++
  "  enabled: true\n" ++
  "  severity: suggestion\n" ++
  ""

-- .husky/pre-commit (setup.ts:1265-1276)
def preCommitEslintContent : String :=
  "#!/usr/bin/env sh\n" ++
  ". \"$(dirname -- \"$0\")/_/husky.sh\"\n" ++
  "\n" ++
  "npx lint-staged\n" ++
  ""

def preCommitThemeCheckContent : String :=
  "#!/usr/bin/env sh\n" ++
  ". \"$(dirname -- \"$0\")/_/husky.sh\"\n" ++
  "\n" ++
  "# Run theme check on liquid files\n" ++
  "npx shopify theme check --fail-level error\n" ++
  ""

-- .lintstagedrc (setup.ts:1289-1298)
def lintStagedContent : String :=
  "\x7b\n" ++
  "  \"frontend/**/*.\x7bjs,ts\x7d\": [\n" ++
  "    \"eslint --fix\",\n" ++
  "    \"prettier --write\"\n" ++
  "  ],\n" ++
  "  \"frontend/**/*.\x7bcss,scss\x7d\": [\n" ++
  "    \"prettier --write\"\n" ++
  "  ]\n" ++
  "\x7d\n" ++
  ""

-- frontend/scripts/utils.js (setup.ts:1359-1417); the two interpolations
-- are the answers of the two prompt calls issued while the template literal
-- is evaluated (setup.ts:1364).
def utilsJsSeg1 : String :=
  "/**\n" ++
  " * Core Utility Functions\n" ++
  " */\n" ++
  "\n" ++
  "export function consoleMessage(message, type = \x27log\x27, data = null) \x7b\n" ++
  "  if (!window."

def utilsJsSeg3 : String :=
  ".settings?.devMode) return;\n" ++
  "\n" ++
  "  const prefix = \x27[Theme]\x27;\n" ++
  "  const styles = \x7b\n" ++
  "    log: \x27color: #3b82f6\x27,\n" ++
  "    info: \x27color: #10b981\x27,\n" ++
  "    warn: \x27color: #f59e0b\x27,\n" ++
  "    error: \x27color: #ef4444\x27,\n" ++
  "  \x7d;\n" ++
  "\n" ++
  "  console[type](`%c$\x7bprefix\x7d $\x7bmessage\x7d`, styles[type] || styles.log, data || \x27\x27);\n" ++
  "\x7d\n" ++
  "\n" ++
  "export function reportWebVitals() \x7b\n" ++
  "  if (\x27PerformanceObserver\x27 in window) \x7b\n" ++
  "    const observer = new PerformanceObserver((list) => \x7b\n" ++
  "      for (const entry of list.getEntries()) \x7b\n" ++
  "        consoleMessage(`Web Vital: $\x7bentry.name\x7d = $\x7bentry.value.toFixed(2)\x7dms`, \x27info\x27);\n" ++
  "      \x7d\n" ++
  "    \x7d);\n" ++
  "\n" ++
  "    observer.observe(\x7b entryTypes: [\x27paint\x27, \x27largest-contentful-paint\x27] \x7d);\n" ++
  "  \x7d\n" ++
  "\x7d\n" ++
  "\n" ++
  "export function initGlobalEvents() \x7b\n" ++
  "  // Add global event listeners here\n" ++
  "  document.addEventListener(\x27click\x27, (e) => \x7b\n" ++
  "    // Handle global clicks\n" ++
  "  \x7d);\n" ++
  "\x7d\n" ++
  "\n" ++
  "export function handleUrlParams() \x7b\n" ++
  "  const params = new URLSearchParams(window.location.search);\n" ++
  "\n" ++
  "  // Handle specific URL parameters\n" ++
  "  if (params.has(\x27cart_open\x27)) \x7b\n" ++
  "    // Open cart\n" ++
  "    consoleMessage(\x27Opening cart from URL parameter\x27, \x27info\x27);\n" ++
  "  \x7d\n" ++
  "\x7d\n" ++
  "\n" ++
  "export function debounce(func, wait) \x7b\n" ++
  "  let timeout;\n" ++
  "  return function executedFunction(...args) \x7b\n" ++
  "    const later = () => \x7b\n" ++
  "      clearTimeout(timeout);\n" ++
  "      func(...args);\n" ++
  "    \x7d;\n" ++
  "    clearTimeout(timeout);\n" ++
  "    timeout = setTimeout(later, wait);\n" ++
  "  \x7d;\n" ++
  "\x7d\n" ++
  ""

def utilsJsContent (answer1 answer2 : String) : String :=
  utilsJsSeg1 ++ answer1 ++ " || !window." ++ answer2 ++ utilsJsSeg3

-- frontend/scripts/hooks/core/sectionRegistry.js (setup.ts:1423-1466)
def sectionRegistryContent : String :=
  "/**\n" ++
  " * Section Registry\n" ++
  " * Manages section lifecycles for Shopify Theme Editor\n" ++
  " */\n" ++
  "\n" ++
  "const sectionInstances = new Map();\n" ++
  "\n" ++
  "export function registerSection(sectionId, callbacks) \x7b\n" ++
  "  if (!sectionInstances.has(sectionId)) \x7b\n" ++
  "    sectionInstances.set(sectionId, []);\n" ++
  "  \x7d\n" ++
  "  sectionInstances.get(sectionId).push(callbacks);\n" ++
  "\x7d\n" ++
  "\n" ++
  "export function registerSectionLifecycles() \x7b\n" ++
  "  if (typeof window.Shopify !== \x27undefined\x27 && window.Shopify.designMode) \x7b\n" ++
  "    document.addEventListener(\x27shopify:section:load\x27, (event) => \x7b\n" ++
  "      const sectionId = event.target.dataset.sectionId;\n" ++
  "      const callbacks = sectionInstances.get(sectionId);\n" ++
  "      if (callbacks) \x7b\n" ++
  "        callbacks.forEach(cb => cb.onLoad?.(event.target));\n" ++
  "      \x7d\n" ++
  "    \x7d);\n" ++
  "\n" ++
  "    document.addEventListener(\x27shopify:section:unload\x27, (event) => \x7b\n" ++
  "      const sectionId = event.target.dataset.sectionId;\n" ++
  "      const callbacks = sectionInstances.get(sectionId);\n" ++
  "      if (callbacks) \x7b\n" ++
  "        callbacks.forEach(cb => cb.onUnload?.(event.target));\n" ++
  "      \x7d\n" ++
  "    \x7d);\n" ++
  "  \x7d else \x7b\n" ++
  "    // Initial load\n" ++
  "    const sections = document.querySelectorAll(\x27[data-section-id]\x27);\n" ++
  "    sections.forEach(section => \x7b\n" ++
  "      const sectionId = section.dataset.sectionId;\n" ++
  "      const callbacks = sectionInstances.get(sectionId);\n" ++
  "      if (callbacks) \x7b\n" ++
  "        callbacks.forEach(cb => cb.onLoad?.(section));\n" ++
  "      \x7d\n" ++
  "    \x7d);\n" ++
  "  \x7d\n" ++
  "\x7d\n" ++
  ""

-- The project context appended to CLAUDE.md (setup.ts:1544-1595)
def tunnelNoteBlock (pm : PackageManager) : String :=
  "\n**Important**: This project uses Cloudflare tunnel for theme editor development. Make sure cloudflared is installed:\n" ++
  "```bash\n" ++
  "brew install cloudflared\n" ++
  "```\n" ++
  "\n" ++
  "When running `" ++ pmName pm ++
  " run dev`, the tunnel will automatically create an HTTPS URL for testing in the Shopify theme editor.\n"

def tailwindNoteBlock : String :=
  "\n**Note**: This project uses Tailwind CSS. While the default guidelines emphasize semantic class names, you may use utility classes if that\x27s the project\x27s chosen approach. Ensure mobile-first responsive design principles are still followed.\n"

def stylingStr : StylingApproach → String
  | .css => "css"
  | .scss => "scss"
  | .postcss => "postcss"
  | .tailwind => "tailwind"

def projectContextContent (cfg : SetupConfig) : String :=
  "\n" ++
  "\n" ++
  "---\n" ++
  "\n" ++
  "## Project-Specific Context\n" ++
  "\n" ++
  "**Project Name**: " ++ cfg.projectName ++ "\n" ++
  "**Store Type**: " ++ jsOr cfg.projectType "e-commerce" ++ "\n" ++
  "**Description**: " ++ jsOr cfg.projectDescription "Shopify theme development project" ++ "\n" ++
  "\n" ++
  "### Configuration\n" ++
  "\n" ++
  "- **Styling Approach**: " ++ stylingStr cfg.stylingApproach ++ "\n" ++
  "- **JavaScript**: " ++ (if cfg.jsApproach = .vanilla then "Vanilla JavaScript" else "TypeScript") ++ "\n" ++
  "- **Package Manager**: " ++ pmName cfg.packageManager ++ "\n" ++
  "- **Theme Editor Setup**: " ++ (if cfg.enableTunnel then "Cloudflare tunnel enabled (Vite 6.0.8)" else "Manual HTTPS configuration required") ++ "\n" ++
  "- **Environment**: " ++ cfg.shopifyEnvironment ++ "\n" ++
  "\n" ++
  "### Project-Specific Notes\n" ++
  "\n" ++
  (if cfg.projectDescription ≠ "" then "This project is " ++ cfg.projectDescription ++ "." else "") ++
  "\n" ++
  "\n" ++
  (if cfg.enableTunnel then tunnelNoteBlock cfg.packageManager else "") ++
  "\n" ++
  "\n" ++
  (if cfg.stylingApproach = .tailwind then tailwindNoteBlock else "") ++
  "\n" ++
  "\n" ++
  "### Quick Start Commands\n" ++
  "\n" ++
  "```bash\n" ++
  "# Start development\n" ++
  pmName cfg.packageManager ++ " run dev\n" ++
  "\n" ++
  "# Build assets\n" ++
  pmName cfg.packageManager ++ " run build\n" ++
  "\n" ++
  "# Deploy to Shopify\n" ++
  pmName cfg.packageManager ++ " run deploy\n" ++
  "```\n" ++
  "\n" ++
  "---\n" ++
  "\n" ++
  "*This project context section is auto-generated. Update it as the project evolves.*\n" ++
  ""

/-! ### The nineteen setup steps (in source order) -/

/-- `createPackageJson` (setup.ts:430-461). -/
def createPackageJson (cfg : SetupConfig) : Step :=
  writeStep [("package.json", .packageJson (basePackageJson cfg))]

/-- `installDependencies` (setup.ts:386-428): runs the install command; any
failure is caught and logged, so the step always returns normally. -/
def installDependencies (env : Env) (cfg : SetupConfig) : Step := fun w =>
  if env.cmdOk (addDevCmd cfg.packageManager (baseDeps cfg)) then .ok w else .ok w

def gitkeepDirs : List String :=
  ["frontend/scripts/sections", "frontend/styles", "frontend/images",
   "frontend/fonts"]

/-- `createDirectoryStructure` (setup.ts:350-384): the `mkdir` calls have no
observable effect in this model (directories are implicit; per-dir failures
are caught); the `.gitkeep` marker files are written. -/
def createDirectoryStructure : Step :=
  writeStep (gitkeepDirs.map (fun d => (d ++ "/.gitkeep", .text "")))

/-- `createViteConfig` (setup.ts:463-538). -/
def createViteConfig (cfg : SetupConfig) : Step :=
  writeStep [("vite.config.js", .text (viteConfigContent cfg))]

/-- `createPostCSSConfig` (setup.ts:540-562). -/
def createPostCSSConfig (cfg : SetupConfig) : Step :=
  writeStep [("postcss.config.js",
    .text (if cfg.stylingApproach = .tailwind then postcssTailwindContent
           else postcssDefaultContent))]

/-- `createGitIgnore` (setup.ts:564-623). -/
def createGitIgnore : Step :=
  writeStep [(".gitignore", .text gitignoreContent)]

/-- `createShopifyIgnore` (setup.ts:625-685). -/
def createShopifyIgnore : Step :=
  writeStep [(".shopifyignore", .text shopifyignoreContent)]

/-- `createGitHubWorkflow` (setup.ts:687-734). -/
def createGitHubWorkflow (cfg : SetupConfig) : Step :=
  writeStep [(".github/workflows/build.yml", .text (workflowContent cfg))]

/-- `createEntrypoints` (setup.ts:736-1001).  Constructing the storefrontJs
template literal throws: at setup.ts:759 the template contains the unescaped
interpolation of the object-literal shorthand for the identifier `amount`
(the Liquid money format was meant literally), and `amount` is unbound in
setup.ts, so evaluating the template raises a ReferenceError before either
`writeFile` call is reached.  The function has no try/catch, so the
exception escapes; no file is written by this step. -/
def createEntrypoints (_cfg : SetupConfig) : Step := fun w => .err w

/-- `createCoreFiles` (setup.ts:1355-1470): evaluating the utils.js template
issues two further `prompt` calls (setup.ts:1364) whose answers are embedded
in the written content; then utils.js and sectionRegistry.js are written. -/
def createCoreFiles : Step := fun w =>
  let p1 := promptC w.stdin
  let p2 := promptC p1.2
  .ok (wWrites { w with stdin := p2.2 }
    [("frontend/scripts/utils.js", .text (utilsJsContent p1.1 p2.1)),
     ("frontend/scripts/hooks/core/sectionRegistry.js",
      .text sectionRegistryContent)])

/-- `createShopifyThemeToml` (setup.ts:1003-1068): on "skip"/"cli" only the
example file is written; on "file" the real TOML with defaults for missing
store URL or theme id. -/
def createShopifyThemeToml (cfg : SetupConfig) : Step :=
  match cfg.tomlApproach with
  | .skip | .cli =>
      writeStep [("example.shopify.theme.toml", .text exampleTomlContent)]
  | .file =>
      writeStep [("shopify.theme.toml",
        .text (themeTomlContent cfg.shopifyEnvironment
          (jsOr cfg.storeUrl "your-store.myshopify.com")
          (jsOrOpt cfg.themeId "your-theme-id")))]

/-- `setupLinting` (setup.ts:1070-1224): skip does nothing; the ESLint
branch installs first and returns early (having written nothing) when the
install fails; the theme-check branch writes its config. -/
def setupLinting (env : Env) (cfg : SetupConfig) : Step := fun w =>
  match cfg.lintingSetup with
  | .skip => .ok w
  | .eslintPrettier =>
      if env.cmdOk (addDevCmd cfg.packageManager (lintDeps cfg)) then
        writeStep
          [("eslint.config.js",
            .text (if cfg.jsApproach = .typescript then eslintConfigTsContent
                   else eslintConfigJsContent)),
           (".prettierrc", .text prettierrcContent),
           (".prettierignore", .text prettierignoreContent)] w
      else .ok w
  | .themeCheck =>
      writeStep [(".theme-check.yml", .text themeCheckContent)] w

def lintScript (cfg : SetupConfig) : String :=
  if cfg.lintingSetup = .eslintPrettier then "eslint frontend/"
  else "shopify theme check"

def lintFixScript (cfg : SetupConfig) : String :=
  if cfg.lintingSetup = .eslintPrettier then "eslint frontend/ --fix"
  else "shopify theme check --auto-correct"

/-- In-place update of a scripts map (JS object property assignment). -/
def setScript : List (String × String) → String → String → List (String × String)
  | [], k, v => [(k, v)]
  | (k0, v0) :: rest, k, v =>
    if k0 = k then (k, v) :: rest else (k0, v0) :: setScript rest k v

/-- The four script assignments of setup.ts:1310-1318. -/
def addLintScripts (cfg : SetupConfig) (pj : PackageJson) : PackageJson :=
  let s1 := setScript pj.scripts "lint" (lintScript cfg)
  let s2 := setScript s1 "lint:fix" (lintFixScript cfg)
  let s3 := setScript s2 "format" "prettier --write frontend/"
  { pj with scripts := setScript s3 "prepare" "husky" }

/-- The hook files written by `setupGitHooks` (setup.ts:1264-1301): the
pre-commit hook, and `.lintstagedrc` for ESLint setups. -/
def hookPs (cfg : SetupConfig) : List (String × FileContent) :=
  [(".husky/pre-commit",
    .text (if cfg.lintingSetup = .eslintPrettier then preCommitEslintContent
           else preCommitThemeCheckContent))] ++
  (if cfg.lintingSetup = .eslintPrettier then
     [(".lintstagedrc", .text lintStagedContent)] else [])

/-- `setupGitHooks` (setup.ts:1226-1325): disabled hooks do nothing; a
failed install returns early; otherwise husky is initialized (failure
caught), the pre-commit hook (and `.lintstagedrc` for ESLint setups) is
written, and package.json is re-read and its scripts updated (failure to
parse is caught). -/
def setupGitHooks (env : Env) (cfg : SetupConfig) : Step := fun w =>
  if cfg.gitHooks then
    if env.cmdOk (addDevCmd cfg.packageManager ["husky", "lint-staged"]) then
      let w1 := wWrites w (hookPs cfg)
      match fsRead w1.files "package.json" with
      | some (.packageJson pj) =>
          .ok (wWrite w1 "package.json" (.packageJson (addLintScripts cfg pj)))
      | _ => .ok w1
    else .ok w
  else .ok w

/-- `pullShopifyTheme` (setup.ts:1472-1488): skipped without a theme id;
the pull command's failure is caught. -/
def pullShopifyTheme (env : Env) (cfg : SetupConfig) : Step := fun w =>
  if jsOrOpt cfg.themeId "" = "" then .ok w
  else if env.cmdOk ("shopify theme pull --theme " ++ jsOrOpt cfg.themeId "" ++
         " --environment " ++ cfg.shopifyEnvironment) then .ok w
  else .ok w

/-- `runInitialBuild` (setup.ts:1513-1534): build failure is caught. -/
def runInitialBuild (env : Env) (cfg : SetupConfig) : Step := fun w =>
  if env.cmdOk (buildCmd cfg.packageManager) then .ok w else .ok w

/-- `updateClaudeMd` (setup.ts:1536-1602): reads CLAUDE.md with no
try/catch — a missing file raises, and the exception escapes the step —
then appends the project context section and rewrites the file. -/
def updateClaudeMd (cfg : SetupConfig) : Step := fun w =>
  match fsRead w.files "CLAUDE.md" with
  | some (.text existing) =>
      .ok (wWrite w "CLAUDE.md" (.text (existing ++ projectContextContent cfg)))
  | _ => .err w

/-- `initializeGit` (setup.ts:1490-1511): returns early when already inside
a git repository; all command failures are caught. -/
def initializeGit (env : Env) : Step := fun w =>
  if env.cmdOk "git rev-parse --git-dir" then .ok w
  else if env.cmdOk "git init; git add .; git commit" then .ok w
  else .ok w

/-- The replaced block of `addTomlToGitignore` (setup.ts:1338-1341). -/
def shopifyFilesBlock : String := "# Shopify theme files\nconfig/settings_data.json"

/-- `addTomlToGitignore` (setup.ts:1327-1353): reads .gitignore (failure
caught); when it does not yet mention shopify.theme.toml, replaces the
Shopify-theme-files block by the block plus the new line and rewrites
the file (a no-op rewrite when the block is absent). -/
def addTomlToGitignore : Step := fun w =>
  match fsRead w.files ".gitignore" with
  | some (.text gi) =>
      if strContains gi "shopify.theme.toml" then .ok w
      else .ok (wWrite w ".gitignore"
        (.text (replaceFirst gi shopifyFilesBlock
          (shopifyFilesBlock ++ "\nshopify.theme.toml"))))
  | _ => .ok w

/-- `displayNextSteps` (setup.ts:1604-1638): console output only. -/
def displayNextSteps (_cfg : SetupConfig) : Step := fun w => .ok w

/-! ## main (setup.ts:1641-1700) -/

/-- The awaited step sequence of `main` (setup.ts:1672-1691), in source
order, paired with the step names. -/
def mainSteps (env : Env) (cfg : SetupConfig) : List NamedStep :=
  [("createPackageJson", createPackageJson cfg),
   ("installDependencies", installDependencies env cfg),
   ("createDirectoryStructure", createDirectoryStructure),
   ("createViteConfig", createViteConfig cfg),
   ("createPostCSSConfig", createPostCSSConfig cfg),
   ("createGitIgnore", createGitIgnore),
   ("createShopifyIgnore", createShopifyIgnore),
   ("createGitHubWorkflow", createGitHubWorkflow cfg),
   ("createEntrypoints", createEntrypoints cfg),
   ("createCoreFiles", createCoreFiles),
   ("createShopifyThemeToml", createShopifyThemeToml cfg),
   ("setupLinting", setupLinting env cfg),
   ("setupGitHooks", setupGitHooks env cfg),
   ("pullShopifyTheme", pullShopifyTheme env cfg),
   ("runInitialBuild", runInitialBuild env cfg),
   ("updateClaudeMd", updateClaudeMd cfg),
   ("initializeGit", initializeGit env),
   ("addTomlToGitignore", addTomlToGitignore),
   ("displayNextSteps", displayNextSteps cfg)]

/-- Result of running the step sequence: the final world, the names of the
steps that started (in order), and whether an exception aborted the rest. -/
structure PhaseResult where
  world : World
  started : List String
  aborted : Bool
deriving DecidableEq

/-- Await each step in order; an escaping exception aborts the remaining
steps (it propagates to `main`'s top-level catch). -/
def runSteps : List NamedStep → World → PhaseResult
  | [], w => ⟨w, [], false⟩
  | (nm, f) :: rest, w =>
    match f w with
    | .ok w1 =>
        let r := runSteps rest w1
        ⟨r.world, nm :: r.started, r.aborted⟩
    | .err w1 => ⟨w1, [nm], true⟩

/-- The confirmation check of setup.ts:1666: anything whose lower-casing is
neither "y" nor "yes" declines. -/
def confirmAccepted (confirm : String) : Bool :=
  jsToLower confirm == "y" || jsToLower confirm == "yes"

/-- Process outcome: an exit code, or no termination at all (a `select` loop
that never receives a valid answer). -/
inductive Outcome
  | exitWith (code : Nat)
  | hang
deriving DecidableEq

/-- `main` (setup.ts:1641-1700): Q&A (exit 1 on empty project name), the
confirmation prompt (exit 0 on decline), then the nineteen steps inside the
top-level try/catch (exit 1 when an exception reaches it, exit 0 after
normal completion). -/
def runMain (env : Env) (initialFiles : FS) (stdin : List String) : Outcome :=
  match askQuestions env stdin with
  | .exited1 => .exitWith 1
  | .diverged => .hang
  | .config cfg rest =>
      let cf := promptC rest
      if confirmAccepted cf.1 then
        if (runSteps (mainSteps env cfg) ⟨initialFiles, cf.2⟩).aborted then
          .exitWith 1
        else .exitWith 0
      else .exitWith 0

end ShopifySetup
namespace ShopifySetup

/-! ## Filesystem lemmas -/

theorem fsRead_fsWrite_self (fs : FS) (p : String) (c : FileContent) :
    fsRead (fsWrite fs p c) p = some c := by
  induction fs with
  | nil => simp [fsWrite, fsRead]
  | cons hd tl ih =>
    obtain ⟨q, d⟩ := hd
    by_cases h : q = p
    · subst h; simp [fsWrite, fsRead]
    · simp [fsWrite, fsRead, h, ih]

theorem fsRead_fsWrite_other (fs : FS) (p q : String) (c : FileContent)
    (h : q ≠ p) : fsRead (fsWrite fs p c) q = fsRead fs q := by
  induction fs with
  | nil => simp [fsWrite, fsRead, Ne.symm h]
  | cons hd tl ih =>
    obtain ⟨q0, d⟩ := hd
    by_cases h0 : q0 = p
    · subst h0
      simp [fsWrite, fsRead, Ne.symm h]
    · by_cases h1 : q0 = q
      · subst h1
        simp [fsWrite, fsRead, h0]
      · simp [fsWrite, fsRead, h0, h1, ih]

theorem fsWrite_self (fs : FS) (p : String) (c : FileContent)
    (h : fsRead fs p = some c) : fsWrite fs p c = fs := by
  induction fs with
  | nil => simp [fsRead] at h
  | cons hd tl ih =>
    obtain ⟨q, d⟩ := hd
    by_cases hq : q = p
    · subst hq
      have hd : d = c := by simpa [fsRead] using h
      subst hd
      simp [fsWrite]
    · simp only [fsRead, if_neg hq] at h
      simp [fsWrite, hq, ih h]

theorem fsWrite_fsWrite (fs : FS) (p : String) (c c' : FileContent) :
    fsWrite (fsWrite fs p c) p c' = fsWrite fs p c' := by
  induction fs with
  | nil => simp [fsWrite]
  | cons hd tl ih =>
    obtain ⟨q, d⟩ := hd
    by_cases hq : q = p
    · subst hq; simp [fsWrite]
    · simp [fsWrite, hq, ih]

theorem fsRead_fsWrites_notmem (fs : FS) (ps : List (String × FileContent))
    (q : String) (h : ∀ pc ∈ ps, pc.1 ≠ q) :
    fsRead (fsWrites fs ps) q = fsRead fs q := by
  induction ps generalizing fs with
  | nil => rfl
  | cons hd tl ih =>
    obtain ⟨p, c⟩ := hd
    rw [fsWrites, ih _ (fun pc hpc => h pc (List.mem_cons_of_mem _ hpc)),
      fsRead_fsWrite_other _ _ _ _ (Ne.symm (h (p, c) (List.mem_cons_self _ _)))]

theorem fsRead_fsWrites_mem (fs : FS) (ps : List (String × FileContent))
    (p : String) (c : FileContent)
    (hd : ps.Pairwise (fun a b => a.1 ≠ b.1)) (hm : (p, c) ∈ ps) :
    fsRead (fsWrites fs ps) p = some c := by
  induction ps generalizing fs with
  | nil => cases hm
  | cons hd0 tl ih =>
    obtain ⟨q, d⟩ := hd0
    obtain ⟨hhead, htail⟩ := List.pairwise_cons.mp hd
    rcases List.mem_cons.mp hm with h | h
    · obtain ⟨rfl, rfl⟩ := Prod.mk.injEq .. ▸ h
      rw [fsWrites,
        fsRead_fsWrites_notmem _ _ _ (fun pc hpc => Ne.symm (hhead pc hpc)),
        fsRead_fsWrite_self]
    · rw [fsWrites]
      exact ih _ htail h

theorem fsWrites_id (fs : FS) (ps : List (String × FileContent))
    (h : ∀ pc ∈ ps, fsRead fs pc.1 = some pc.2) :
    fsWrites fs ps = fs := by
  induction ps with
  | nil => rfl
  | cons hd tl ih =>
    obtain ⟨p, c⟩ := hd
    rw [fsWrites, fsWrite_self fs p c (h (p, c) (List.mem_cons_self _ _))]
    exact ih (fun pc hpc => h pc (List.mem_cons_of_mem _ hpc))

theorem fsWrites_idem (fs : FS) (ps : List (String × FileContent))
    (hd : ps.Pairwise (fun a b => a.1 ≠ b.1)) :
    fsWrites (fsWrites fs ps) ps = fsWrites fs ps :=
  fsWrites_id _ _ (fun pc hpc => by
    obtain ⟨p, c⟩ := pc
    exact fsRead_fsWrites_mem fs ps p c hd hpc)

/-! ## Step idempotence machinery -/

/-- Running `f` a second time on the state its first run left behind
produces the same file contents as running it once. -/
def stepFilesIdem (f : Step) (w : World) : Prop :=
  ((f (f w).world).world).files = ((f w).world).files

theorem stepFilesIdem_of_world_id (f : Step) (h : ∀ w, (f w).world = w)
    (w : World) : stepFilesIdem f w := by
  unfold stepFilesIdem
  simp [h]

theorem writeStep_filesIdem (ps : List (String × FileContent))
    (hd : ps.Pairwise (fun a b => a.1 ≠ b.1)) (w : World) :
    stepFilesIdem (writeStep ps) w := by
  unfold stepFilesIdem writeStep wWrites
  exact fsWrites_idem _ _ hd

/-! ## Substring lemmas -/

theorem replaceFirst_of_not_contains (s pat repl : String)
    (h : strContains s pat = false) : replaceFirst s pat repl = s := by
  unfold replaceFirst
  split
  · rfl
  · next i hi => rw [strContains, hi] at h; simp at h

theorem findSub_isSome_iff (pat s : List Char) :
    (findSub pat s).isSome = true ↔ pat <:+: s := by
  induction s with
  | nil =>
    constructor
    · intro hs
      by_cases hp : pat.isPrefixOf ([] : List Char)
      · exact (List.isPrefixOf_iff_prefix.mp hp).isInfix
      · simp [findSub, hp] at hs
    · intro hin
      obtain rfl : pat = [] := List.infix_nil.mp hin
      rfl
  | cons a t ih =>
    by_cases hp : pat.isPrefixOf (a :: t)
    · simp [findSub, hp, List.infix_cons_iff,
        Or.inl (List.isPrefixOf_iff_prefix.mp hp)]
    · have hnp : ¬ pat <+: a :: t := fun hc => hp (List.isPrefixOf_iff_prefix.mpr hc)
      simp [findSub, hp, List.infix_cons_iff, hnp, ih]

theorem strContains_eq_true_iff (s pat : String) :
    strContains s pat = true ↔ pat.data <:+: s.data := by
  unfold strContains
  exact findSub_isSome_iff pat.data s.data

theorem strContains_of_middle (x m y : List Char) (p : String)
    (h : strContains ⟨m⟩ p = true) : strContains ⟨x ++ m ++ y⟩ p = true := by
  rw [strContains_eq_true_iff] at h ⊢
  exact h.trans (List.infix_append x m y)

/-! ## Scripts map lemmas -/

def lookupScript : List (String × String) → String → Option String
  | [], _ => none
  | (k0, v0) :: rest, k => if k0 = k then some v0 else lookupScript rest k

theorem lookupScript_set_self (s : List (String × String)) (k v : String) :
    lookupScript (setScript s k v) k = some v := by
  induction s with
  | nil => simp [setScript, lookupScript]
  | cons hd tl ih =>
    obtain ⟨k0, v0⟩ := hd
    by_cases h : k0 = k
    · subst h; simp [setScript, lookupScript]
    · simp [setScript, lookupScript, h, ih]

theorem lookupScript_set_other (s : List (String × String)) (k k' v : String)
    (h : k' ≠ k) : lookupScript (setScript s k' v) k = lookupScript s k := by
  induction s with
  | nil => simp [setScript, lookupScript, h]
  | cons hd tl ih =>
    obtain ⟨k0, v0⟩ := hd
    by_cases h0 : k0 = k'
    · subst h0; simp [setScript, lookupScript, h]
    · by_cases h1 : k0 = k <;>
        simp [setScript, lookupScript, h0, h1, Ne.symm h, ih]

theorem setScript_of_lookup (s : List (String × String)) (k v : String)
    (h : lookupScript s k = some v) : setScript s k v = s := by
  induction s with
  | nil => simp [lookupScript] at h
  | cons hd tl ih =>
    obtain ⟨k0, v0⟩ := hd
    by_cases h0 : k0 = k
    · subst h0
      have hv : v0 = v := by simpa [lookupScript] using h
      subst hv
      simp [setScript]
    · simp only [lookupScript, if_neg h0] at h
      simp [setScript, h0, ih h]

theorem addLintScripts_idem (cfg : SetupConfig) (pj : PackageJson) :
    addLintScripts cfg (addLintScripts cfg pj) = addLintScripts cfg pj := by
  unfold addLintScripts
  simp only
  congr 1
  rw [setScript_of_lookup _ "lint" _ (by
        rw [lookupScript_set_other _ _ _ _ (by decide),
          lookupScript_set_other _ _ _ _ (by decide),
          lookupScript_set_other _ _ _ _ (by decide),
          lookupScript_set_self]),
      setScript_of_lookup _ "lint:fix" _ (by
        rw [lookupScript_set_other _ _ _ _ (by decide),
          lookupScript_set_other _ _ _ _ (by decide),
          lookupScript_set_self]),
      setScript_of_lookup _ "format" _ (by
        rw [lookupScript_set_other _ _ _ _ (by decide),
          lookupScript_set_self]),
      setScript_of_lookup _ "prepare" _ (lookupScript_set_self _ _ _)]

/-! ## runSteps trace lemma -/

theorem runSteps_started_take (l : List NamedStep) (w : World) :
    ∃ n, (runSteps l w).started = (l.map Prod.fst).take n := by
  induction l generalizing w with
  | nil => exact ⟨0, rfl⟩
  | cons hd tl ih =>
    obtain ⟨nm, f⟩ := hd
    unfold runSteps
    cases hf : f w with
    | ok w1 =>
      obtain ⟨n, hn⟩ := ih w1
      exact ⟨n + 1, by simp [hn]⟩
    | err w1 => exact ⟨1, by simp⟩

/-! ## askQuestions never exits after the first question -/

theorem bindSel_ne_exited1 (len : Nat) (s : List String)
    (k : Nat → List String → AskResult)
    (hk : ∀ i t, k i t ≠ .exited1) : bindSel len s k ≠ .exited1 := by
  unfold bindSel
  cases selectRun len s with
  | none => simp
  | some r => exact hk r.index r.rest

theorem askTail_ne_exited1 (base : SetupConfig) (s : List String) :
    askTail base s ≠ .exited1 := by
  unfold askTail
  exact bindSel_ne_exited1 _ _ _ (fun i t => by simp)

theorem askThemes_ne_exited1 (env : Env) (base : SetupConfig)
    (s : List String) : askThemes env base s ≠ .exited1 := by
  unfold askThemes
  split
  · apply bindSel_ne_exited1
    intro i t
    split
    · exact askTail_ne_exited1 _ _
    · exact askTail_ne_exited1 _ _
  · exact askTail_ne_exited1 _ _

theorem askRest_ne_exited1 (env : Env) (projectName : String)
    (s : List String) : askRest env projectName s ≠ .exited1 := by
  unfold askRest
  apply bindSel_ne_exited1; intro i1 t1
  apply bindSel_ne_exited1; intro i2 t2
  apply bindSel_ne_exited1; intro i3 t3
  apply bindSel_ne_exited1; intro i4 t4
  apply bindSel_ne_exited1; intro i5 t5
  apply bindSel_ne_exited1; intro i6 t6
  apply bindSel_ne_exited1; intro i7 t7
  exact askThemes_ne_exited1 _ _ _

theorem askQuestions_exited1_iff (env : Env) (stdin : List String) :
    askQuestions env stdin = .exited1 ↔ (promptC stdin).1 = "" := by
  unfold askQuestions
  by_cases h : (promptC stdin).1 = ""
  · simp [h]
  · simp [h, askRest_ne_exited1]

end ShopifySetup
namespace ShopifySetup

/-! ## Concrete fixtures for witnesses and counterexamples -/

/-- A run environment where no themes were fetched and every external
command succeeds. -/
def env0 : Env := ⟨[], fun _ => true⟩

/-- A concrete confirmed configuration. -/
def cfg0 : SetupConfig where
  projectName := "acme-store"
  stylingApproach := .css
  jsApproach := .vanilla
  packageManager := .bun
  shopifyEnvironment := "development"
  themeId := none
  enableTunnel := true
  projectType := "e-commerce"
  projectDescription := ""
  tomlApproach := .file
  storeUrl := "acme-store.myshopify.com"
  lintingSetup := .eslintPrettier
  gitHooks := true

/-- An empty directory and an exhausted stdin. -/
def w0 : World := ⟨[], []⟩

/-- The steps phase run on `cfg0` in `env0` from an empty directory. -/
def brokenRun : PhaseResult := runSteps (mainSteps env0 cfg0) w0

/-- A complete interactive session: Q&A answers for `askQuestions` followed
by a "y" at the confirmation prompt. -/
def stdinConfirmed : List String :=
  ["acme-store", "1", "1", "1", "1", "1", "acme-store", "3", "2", "1", "", "y"]

/-! ## Further helper lemmas -/

theorem strContains_of_endsWith (s p : String) (h : strEndsWith s p = true) :
    strContains s p = true := by
  rw [strContains_eq_true_iff]
  exact (List.isSuffixOf_iff_suffix.mp h).isInfix

theorem selectRun_prompts_pos (len : Nat) (answers : List String)
    (r : SelectResult) (h : selectRun len answers = some r) : 1 ≤ r.prompts := by
  induction answers generalizing r with
  | nil => simp [selectRun] at h
  | cons a t ih =>
    rw [selectRun] at h
    cases hv : validChoice len (jsTrim a) with
    | some i =>
      rw [hv] at h
      obtain rfl : (⟨1, i, t⟩ : SelectResult) = r := by simpa using h
      exact Nat.le_refl 1
    | none =>
      rw [hv] at h
      cases hs : selectRun len t with
      | none => rw [hs] at h; cases h
      | some r0 =>
        rw [hs] at h
        obtain rfl : (⟨r0.prompts + 1, r0.index, r0.rest⟩ : SelectResult) = r := by
          simpa using h
        simp

/-! ## Claim C9 -/

/-- The store URL the configuration ends up with, when the Q&A completed. -/
def storedStoreUrl (r : AskResult) : Option String :=
  match r with
  | .config cfg _ => some cfg.storeUrl
  | _ => none

/-- A Q&A session choosing the "file" TOML approach and entering a store
URL that contains ".myshopify.com" in the middle rather than as a suffix. -/
def stdin9 : List String :=
  ["acme-store", "1", "1", "1", "1", "1", "acme.myshopify.com.co", "3", "2", "1", ""]

/-- Claim C9, counterexample: entering the non-empty store URL
"acme.myshopify.com.co" under the "file" TOML approach stores it unchanged
in the configuration, and the stored URL does not end with ".myshopify.com"
— refuting "the storeUrl stored in the configuration ends with
\".myshopify.com\"". -/
theorem claim9_counterexample :
    storedStoreUrl (askQuestions env0 stdin9) = some "acme.myshopify.com.co" ∧
    (storedStoreUrl (askQuestions env0 stdin9)).map
      (fun u => strEndsWith u ".myshopify.com") = some false := by
  decide

/-- Claim C9 (amended): for every non-empty store URL entered under the
"file" TOML approach, when the input does not contain ".myshopify.com" the
normalization appends ".myshopify.com" (so the result ends with it), and an
input already containing ".myshopify.com" anywhere is kept unchanged — it
therefore ends with ".myshopify.com" only if the input already did. -/
theorem claim9_amended (input : String) (hne : input ≠ "") :
    (strContains input ".myshopify.com" = false →
      normalizeStoreUrl input = input ++ ".myshopify.com" ∧
      strEndsWith (normalizeStoreUrl input) ".myshopify.com" = true)
  ∧ (strContains input ".myshopify.com" = true →
      normalizeStoreUrl input = input) := by
  constructor
  · intro hnc
    have hend : strEndsWith input ".myshopify.com" = false := by
      cases he : strEndsWith input ".myshopify.com"
      · rfl
      · rw [strContains_of_endsWith input _ he] at hnc; cases hnc
    have hdrop : dropMyshopifySuffix input = input := by
      unfold dropMyshopifySuffix
      rw [hend]
      simp
    have hnorm : normalizeStoreUrl input = input ++ ".myshopify.com" := by
      unfold normalizeStoreUrl
      rw [if_pos ⟨hne, hnc⟩, hdrop]
    refine ⟨hnorm, ?_⟩
    rw [hnorm]
    unfold strEndsWith
    apply List.isSuffixOf_iff_suffix.mpr
    rw [String.data_append]
    exact List.suffix_append _ _
  · intro hc
    unfold normalizeStoreUrl
    rw [if_neg]
    simp [hc]

/-- Claim C9 amended, witness at the input "acme". -/
theorem claim9_amended_witness :
    normalizeStoreUrl "acme" = "acme" ++ ".myshopify.com" ∧
    strEndsWith (normalizeStoreUrl "acme") ".myshopify.com" = true :=
  (claim9_amended "acme" (by decide)).1 (by decide)

/-! ## Claim C10 -/

/-- The world after `createGitIgnore` and one run of `addTomlToGitignore`. -/
def gitignoreAfterToml : World :=
  (addTomlToGitignore ((createGitIgnore w0).world)).world

/-- Whether a .gitignore content has the shopify.theme.toml line immediately
after the config/settings_data.json line. -/
def hasTomlAfterSettings (ofc : Option FileContent) : Bool :=
  match ofc with
  | some (.text g) => strContains g "config/settings_data.json\nshopify.theme.toml\n"
  | _ => false

/-- Claim C10: on the exact .gitignore written by createGitIgnore,
addTomlToGitignore inserts the "shopify.theme.toml" line immediately after
"config/settings_data.json"; a second run on its own output changes
nothing; and on a .gitignore that neither mentions shopify.theme.toml nor
contains the literal Shopify-theme-files block, the function rewrites the
file with its content unchanged (the entry is not added). -/
theorem claim10_gitignore_round (c : String) :
    hasTomlAfterSettings (fsRead gitignoreAfterToml.files ".gitignore") = true
  ∧ (addTomlToGitignore gitignoreAfterToml).world.files = gitignoreAfterToml.files
  ∧ (strContains c "shopify.theme.toml" = false →
     strContains c shopifyFilesBlock = false →
     (addTomlToGitignore ⟨[(".gitignore", .text c)], []⟩).world.files
       = [(".gitignore", .text c)]) := by
  refine ⟨by decide, by decide, fun h1 h2 => ?_⟩
  unfold addTomlToGitignore
  have hread : fsRead [(".gitignore", FileContent.text c)] ".gitignore"
      = some (.text c) := by simp [fsRead]
  simp only [hread, h1, Bool.false_eq_true, if_false,
    replaceFirst_of_not_contains c shopifyFilesBlock _ h2]
  simp [wWrite, fsWrite, StepOut.world]

/-- Claim C10, witness for the no-block branch at a tiny .gitignore. -/
theorem claim10_witness :
    (addTomlToGitignore ⟨[(".gitignore", .text "dist/\n")], []⟩).world.files
      = [(".gitignore", .text "dist/\n")] :=
  (claim10_gitignore_round "dist/\n").2.2 (by decide) (by decide)

/-! ## Claim C5 -/

/-- Two worlds with identical (empty) filesystems and different stdin. -/
def coreInputA : World := ⟨[], ["acme", "acme"]⟩

def coreInputB : World := ⟨[], ["boom", "bust"]⟩

/-- Claim C5 (code-bug evidence): `createCoreFiles` takes no configuration
at all; evaluating its utils.js template issues two further prompts
(setup.ts:1364) and embeds the answers in the written file, so identical
filesystems with different stdin produce different utils.js contents, and
the stdin is consumed.  The configuration alone does not determine the
step's output, refuting "createCoreFiles derives its output solely from
the config". -/
theorem claim5_corefiles_reads_stdin :
    coreInputA.files = coreInputB.files
  ∧ (createCoreFiles coreInputA).world.stdin = []
  ∧ fsRead (createCoreFiles coreInputA).world.files "frontend/scripts/utils.js"
      ≠ fsRead (createCoreFiles coreInputB).world.files "frontend/scripts/utils.js" := by
  refine ⟨rfl, rfl, ?_⟩
  decide

/-! ## Claim C4 -/

/-- Claim C4 (code-bug evidence): with every external command succeeding
and every choice confirmed, the steps phase aborts inside createEntrypoints
(the storefront template evaluation throws on the unbound `amount`
interpolation, setup.ts:759), so storefront.js, the styling entrypoint, the
theme TOML, the ESLint config and the git hook are never written — although
the files of the eight earlier steps are present — and the whole run exits
with code 1 instead of writing all advertised files. -/
theorem claim4_files_never_written :
    brokenRun.aborted = true
  ∧ brokenRun.started.getLast? = some "createEntrypoints"
  ∧ fsRead brokenRun.world.files "frontend/entrypoints/storefront.js" = none
  ∧ fsRead brokenRun.world.files "frontend/entrypoints/custom_styling.css" = none
  ∧ fsRead brokenRun.world.files "shopify.theme.toml" = none
  ∧ fsRead brokenRun.world.files "eslint.config.js" = none
  ∧ fsRead brokenRun.world.files ".husky/pre-commit" = none
  ∧ (fsRead brokenRun.world.files "package.json").isSome = true
  ∧ (fsRead brokenRun.world.files ".gitignore").isSome = true
  ∧ (fsRead brokenRun.world.files ".github/workflows/build.yml").isSome = true
  ∧ runMain env0 [] stdinConfirmed = .exitWith 1 := by
  decide

/-! ## Claim C2, counterexample -/

/-- Claim C2, counterexample: in a run with every external command
succeeding, a failure inside one step (createEntrypoints) is not caught
within the step: the phase aborts and the subsequent steps
(createCoreFiles, …, displayNextSteps) never start — refuting "execution
always proceeds to every subsequent step". -/
theorem claim2_counterexample :
    brokenRun.aborted = true
  ∧ "createCoreFiles" ∉ brokenRun.started
  ∧ "updateClaudeMd" ∉ brokenRun.started
  ∧ "displayNextSteps" ∉ brokenRun.started := by
  decide

/-! ## Claim C7 -/

/-- The step order stated by the specification. -/
def mainStepNames : List String :=
  ["createPackageJson", "installDependencies", "createDirectoryStructure",
   "createViteConfig", "createPostCSSConfig", "createGitIgnore",
   "createShopifyIgnore", "createGitHubWorkflow", "createEntrypoints",
   "createCoreFiles", "createShopifyThemeToml", "setupLinting",
   "setupGitHooks", "pullShopifyTheme", "runInitialBuild", "updateClaudeMd",
   "initializeGit", "addTomlToGitignore", "displayNextSteps"]

/-- Claim C7: main awaits the nineteen steps strictly sequentially in the
fixed order createPackageJson, …, displayNextSteps with the summary step
last: the step list of the embedded main is exactly `mainStepNames`, and
any run's started-steps trace is a prefix of that order (a prefix shorter
than the whole list only when an escaping exception aborted the phase). -/
theorem claim7_sequential_fixed_order (env : Env) (cfg : SetupConfig) :
    (mainSteps env cfg).map Prod.fst = mainStepNames
  ∧ mainStepNames.getLast? = some "displayNextSteps"
  ∧ ∀ w, ∃ n, (runSteps (mainSteps env cfg) w).started = mainStepNames.take n := by
  refine ⟨rfl, rfl, fun w => ?_⟩
  obtain ⟨n, hn⟩ := runSteps_started_take (mainSteps env cfg) w
  exact ⟨n, hn⟩

/-! ## Claim C1 -/

theorem runMain_config (env : Env) (initialFiles : FS) (stdin : List String)
    (cfg : SetupConfig) (rest : List String)
    (h : askQuestions env stdin = .config cfg rest) :
    runMain env initialFiles stdin =
      (if confirmAccepted (promptC rest).1 then
        (if (runSteps (mainSteps env cfg) ⟨initialFiles, (promptC rest).2⟩).aborted
         then .exitWith 1 else .exitWith 0)
       else .exitWith 0) := by
  simp [runMain, h]

theorem exists_config_iff (cfg : SetupConfig) (rest : List String)
    (P : SetupConfig → List String → Prop) :
    (∃ cfg' rest', AskResult.config cfg rest = .config cfg' rest' ∧ P cfg' rest')
      ↔ P cfg rest := by
  constructor
  · rintro ⟨cfg', rest', heq, hp⟩
    injection heq with h1 h2
    subst h1
    subst h2
    exact hp
  · intro hp
    exact ⟨cfg, rest, rfl, hp⟩

/-- Claim C1: the exit code is exactly 1 when the required project-name
answer is empty or when (after an accepted confirmation) an exception
escapes the steps phase and reaches main's top-level catch; exactly 0 when
the confirmation is declined or the steps phase completes; and no exit code
other than 0 and 1 ever occurs (the only non-exiting behaviour is a select
loop that never receives a valid answer). -/
theorem claim1_exit_codes (env : Env) (initialFiles : FS) (stdin : List String) :
    (runMain env initialFiles stdin = .exitWith 1 ↔
      (promptC stdin).1 = "" ∨
      (∃ cfg rest, askQuestions env stdin = .config cfg rest ∧
        confirmAccepted (promptC rest).1 = true ∧
        (runSteps (mainSteps env cfg) ⟨initialFiles, (promptC rest).2⟩).aborted = true))
  ∧ (runMain env initialFiles stdin = .exitWith 0 ↔
      (∃ cfg rest, askQuestions env stdin = .config cfg rest ∧
        (confirmAccepted (promptC rest).1 = false ∨
         (runSteps (mainSteps env cfg) ⟨initialFiles, (promptC rest).2⟩).aborted = false)))
  ∧ (∀ c, runMain env initialFiles stdin = .exitWith c → c = 0 ∨ c = 1) := by
  cases h : askQuestions env stdin with
  | exited1 =>
    have he : (promptC stdin).1 = "" := (askQuestions_exited1_iff env stdin).mp h
    refine ⟨?_, ?_, ?_⟩
    · simp [runMain, h, he]
    · simp [runMain, h]
    · intro c hc
      simp only [runMain, h, Outcome.exitWith.injEq] at hc
      omega
  | diverged =>
    have hne : ¬ (promptC stdin).1 = "" := by
      intro hh
      have h2 := (askQuestions_exited1_iff env stdin).mpr hh
      rw [h] at h2
      exact AskResult.noConfusion h2
    refine ⟨?_, ?_, ?_⟩
    · simp [runMain, h, hne]
    · simp [runMain, h]
    · intro c hc
      simp [runMain, h] at hc
  | config cfg rest =>
    have hne : ¬ (promptC stdin).1 = "" := by
      intro hh
      have h2 := (askQuestions_exited1_iff env stdin).mpr hh
      rw [h] at h2
      exact AskResult.noConfusion h2
    have hrw := runMain_config env initialFiles stdin cfg rest h
    refine ⟨?_, ?_, ?_⟩
    · rw [hrw, exists_config_iff cfg rest
        (fun cfg' rest' => confirmAccepted (promptC rest').1 = true ∧
          (runSteps (mainSteps env cfg') ⟨initialFiles, (promptC rest').2⟩).aborted = true)]
      cases hcf : confirmAccepted (promptC rest).1 <;>
        cases hab : (runSteps (mainSteps env cfg) ⟨initialFiles, (promptC rest).2⟩).aborted <;>
          simp [hcf, hab, hne]
    · rw [hrw, exists_config_iff cfg rest
        (fun cfg' rest' => confirmAccepted (promptC rest').1 = false ∨
          (runSteps (mainSteps env cfg') ⟨initialFiles, (promptC rest').2⟩).aborted = false)]
      cases hcf : confirmAccepted (promptC rest).1 <;>
        cases hab : (runSteps (mainSteps env cfg) ⟨initialFiles, (promptC rest).2⟩).aborted <;>
          simp [hcf, hab]
    · intro c hc
      rw [hrw] at hc
      cases hcf : confirmAccepted (promptC rest).1 <;>
        cases hab : (runSteps (mainSteps env cfg) ⟨initialFiles, (promptC rest).2⟩).aborted <;>
          rw [hcf, hab] at hc <;> simp at hc <;> omega

/-- Claim C1, witness: the run whose stdin is exhausted (empty project
name) exits with code 1. -/
theorem claim1_witness : runMain env0 [] [] = .exitWith 1 :=
  (claim1_exit_codes env0 [] []).1.mpr (Or.inl rfl)

end ShopifySetup
namespace ShopifySetup

/-! ## Claim C3 -/

/-- Claim C3: for every non-empty option list, whenever `select` resolves
it does so at an answer whose `parseInt` value `c` satisfies
`1 ≤ c ≤ options.length`, the resolved index is `c - 1`, and consequently
every resolved index lies in `[0, options.length - 1]`; any other answer
(non-numeric or out of range) is rejected and the question retried. -/
theorem claim3_select_resolves_in_range (options : List String)
    (answers : List String) (r : SelectResult) (_hne : options ≠ [])
    (h : selectRun options.length answers = some r) :
    r.index < options.length ∧
    ∃ raw c, answers[r.prompts - 1]? = some raw ∧
      jsParseInt (jsTrim raw) = some c ∧ 1 ≤ c ∧ c ≤ (options.length : Int) ∧
      r.index = (c - 1).toNat := by
  induction answers generalizing r with
  | nil => simp [selectRun] at h
  | cons a t ih =>
    rw [selectRun] at h
    cases hv : validChoice options.length (jsTrim a) with
    | some i =>
      rw [hv] at h
      obtain rfl : (⟨1, i, t⟩ : SelectResult) = r := by simpa using h
      unfold validChoice at hv
      split at hv
      · exact absurd hv (by simp)
      · rename_i c hp
        split at hv
        · rename_i hrange
          obtain ⟨h1, h2⟩ := hrange
          injection hv with hv
          constructor
          · show i < options.length
            omega
          · exact ⟨a, c, by simp, hp, h1, h2, hv.symm⟩
        · exact absurd hv (by simp)
    | none =>
      rw [hv] at h
      cases hs : selectRun options.length t with
      | none => rw [hs] at h; cases h
      | some r0 =>
        rw [hs] at h
        obtain rfl : (⟨r0.prompts + 1, r0.index, r0.rest⟩ : SelectResult) = r := by
          simpa using h
        obtain ⟨hlt, raw, c, hget, hparse, h1, h2, hidx⟩ := ih r0 hs
        have hpos := selectRun_prompts_pos options.length t r0 hs
        refine ⟨hlt, raw, c, ?_, hparse, h1, h2, hidx⟩
        have hsz : r0.prompts + 1 - 1 = (r0.prompts - 1) + 1 := by omega
        rw [hsz]
        simpa using hget

/-- Claim C3, witness: with three options and the answers "x", "9", "2",
`select` resolves after three prompts with index 1 = 2 - 1. -/
theorem claim3_witness :
    (⟨3, 1, ([] : List String)⟩ : SelectResult).index
        < (["A", "B", "C"] : List String).length ∧
    ∃ raw c,
      (["x", "9", "2"] : List String)[(⟨3, 1, ([] : List String)⟩ : SelectResult).prompts - 1]?
          = some raw ∧
      jsParseInt (jsTrim raw) = some c ∧ 1 ≤ c ∧
      c ≤ (((["A", "B", "C"] : List String).length : Nat) : Int) ∧
      (⟨3, 1, ([] : List String)⟩ : SelectResult).index = (c - 1).toNat :=
  claim3_select_resolves_in_range ["A", "B", "C"] ["x", "9", "2"] ⟨3, 1, []⟩
    (by decide) (by decide)

/-! ## Claim C8 -/

/-- Claim C8: `select` terminates exactly when some answer is valid: if the
n-th answer is the first whose `parseInt` value lies in
`[1, options.length]`, `select` resolves after exactly n prompts; and when
no answer is ever valid, `select` never resolves. -/
theorem claim8_select_termination (len : Nat) :
    (∀ (answers : List String) (n i : Nat) (raw : String),
       0 < n → answers[n - 1]? = some raw →
       validChoice len (jsTrim raw) = some i →
       (∀ (m : Nat) (b : String), m < n - 1 → answers[m]? = some b →
          validChoice len (jsTrim b) = none) →
       ∃ rest, selectRun len answers = some ⟨n, i, rest⟩)
  ∧ (∀ answers : List String,
       (∀ (m : Nat) (b : String), answers[m]? = some b →
          validChoice len (jsTrim b) = none) →
       selectRun len answers = none) := by
  constructor
  · intro answers
    induction answers with
    | nil =>
      intro n i raw hn hget hvalid hbefore
      simp at hget
    | cons a t ih =>
      intro n i raw hn hget hvalid hbefore
      match n, hn with
      | 1, _ =>
        have ha : a = raw := by simpa using hget
        subst ha
        rw [selectRun, hvalid]
        exact ⟨t, rfl⟩
      | (k + 2), _ =>
        have h0 : validChoice len (jsTrim a) = none :=
          hbefore 0 a (by omega) (by simp)
        rw [selectRun, h0]
        have hshift : ∀ (m : Nat) (b : String), m < (k + 1) - 1 →
            t[m]? = some b → validChoice len (jsTrim b) = none := fun m b hm hb =>
          hbefore (m + 1) b (by omega) (by simpa using hb)
        obtain ⟨rest, hr⟩ := ih (k + 1) i raw (by omega)
          (by simpa using hget) hvalid hshift
        rw [hr]
        exact ⟨rest, rfl⟩
  · intro answers
    induction answers with
    | nil => intro _; rfl
    | cons a t ih =>
      intro hall
      have h0 : validChoice len (jsTrim a) = none := hall 0 a (by simp)
      have hshift : ∀ (m : Nat) (b : String), t[m]? = some b →
          validChoice len (jsTrim b) = none := fun m b hb =>
        hall (m + 1) b (by simpa using hb)
      rw [selectRun, h0, ih hshift]
      rfl

/-- Claim C8, witness: the third answer "2" is the first valid one among
"x", "9", "2" for three options, and select resolves after exactly three
prompts; with no valid answer ("x", "9", "zz") it never resolves. -/
theorem claim8_witness :
    (∃ rest, selectRun 3 ["x", "9", "2"] = some ⟨3, 1, rest⟩) ∧
    selectRun 3 ["x", "9", "zz"] = none := by
  constructor
  · exact (claim8_select_termination 3).1 ["x", "9", "2"] 3 1 "2"
      (by decide) (by decide) (by decide)
      (fun m b hm hb => by
        interval_cases m <;>
          simp only [List.getElem?_cons_zero, List.getElem?_cons_succ,
            Option.some.injEq] at hb <;>
          subst hb <;> decide)
  · exact (claim8_select_termination 3).2 ["x", "9", "zz"]
      (fun m b hb => by
        match m with
        | 0 => simp only [List.getElem?_cons_zero, Option.some.injEq] at hb
               subst hb; decide
        | 1 => simp only [List.getElem?_cons_succ, List.getElem?_cons_zero,
                 Option.some.injEq] at hb
               subst hb; decide
        | 2 => simp only [List.getElem?_cons_succ, List.getElem?_cons_zero,
                 Option.some.injEq] at hb
               subst hb; decide
        | (k + 3) => simp at hb)

end ShopifySetup
namespace ShopifySetup

/-! ## Claim C2, amended -/

/-- Claim C2 (amended): per-step failure handling holds for the steps that
guard their fallible operations — installDependencies, the directory and
file-writing steps, setupLinting, setupGitHooks, pullShopifyTheme,
runInitialBuild, initializeGit and addTomlToGitignore return normally for
every environment (all external-command failures are caught and logged) —
but not for the two steps with unguarded operations: createEntrypoints
always throws (the unbound `amount` interpolation of setup.ts:759), and
updateClaudeMd throws whenever CLAUDE.md does not exist (unguarded read,
setup.ts:1541); those exceptions escape to main's top-level catch and abort
all remaining steps. -/
theorem claim2_amended (env : Env) (cfg : SetupConfig) (w : World) :
    (createPackageJson cfg w).isOk = true
  ∧ (installDependencies env cfg w).isOk = true
  ∧ (createDirectoryStructure w).isOk = true
  ∧ (createViteConfig cfg w).isOk = true
  ∧ (createPostCSSConfig cfg w).isOk = true
  ∧ (createGitIgnore w).isOk = true
  ∧ (createShopifyIgnore w).isOk = true
  ∧ (createGitHubWorkflow cfg w).isOk = true
  ∧ (createCoreFiles w).isOk = true
  ∧ (createShopifyThemeToml cfg w).isOk = true
  ∧ (setupLinting env cfg w).isOk = true
  ∧ (setupGitHooks env cfg w).isOk = true
  ∧ (pullShopifyTheme env cfg w).isOk = true
  ∧ (runInitialBuild env cfg w).isOk = true
  ∧ (initializeGit env w).isOk = true
  ∧ (addTomlToGitignore w).isOk = true
  ∧ (displayNextSteps cfg w).isOk = true
  ∧ (createEntrypoints cfg w).isOk = false
  ∧ (fsRead w.files "CLAUDE.md" = none → (updateClaudeMd cfg w).isOk = false) := by
  refine ⟨rfl, ?_, rfl, rfl, rfl, rfl, rfl, rfl, rfl, ?_, ?_, ?_, ?_, ?_, ?_, ?_,
    rfl, rfl, ?_⟩
  · simp only [installDependencies]
    split <;> rfl
  · simp only [createShopifyThemeToml]
    cases cfg.tomlApproach <;> rfl
  · simp only [setupLinting]
    cases cfg.lintingSetup
    · by_cases hcL : env.cmdOk (addDevCmd cfg.packageManager (lintDeps cfg)) = true
      · simp only [if_pos hcL]; rfl
      · simp only [if_neg hcL]; rfl
    · rfl
    · rfl
  · simp only [setupGitHooks]
    split
    · split
      · split <;> rfl
      · rfl
    · rfl
  · simp only [pullShopifyTheme]
    split
    · rfl
    · split <;> rfl
  · simp only [runInitialBuild]
    split <;> rfl
  · simp only [initializeGit]
    split
    · rfl
    · split <;> rfl
  · simp only [addTomlToGitignore]
    split
    · split <;> rfl
    · rfl
  · intro h
    simp [updateClaudeMd, h, StepOut.isOk]

/-- Claim C2 amended, witness: at `cfg0` in `env0` on an empty directory
(no CLAUDE.md), the guarded steps return normally while createEntrypoints
and updateClaudeMd throw. -/
theorem claim2_amended_witness :
    (installDependencies env0 cfg0 w0).isOk = true
  ∧ (setupGitHooks env0 cfg0 w0).isOk = true
  ∧ (createEntrypoints cfg0 w0).isOk = false
  ∧ (updateClaudeMd cfg0 w0).isOk = false := by
  obtain ⟨h1, h2, h3, h4, h5, h6, h7, h8, h9, h10, h11, h12, h13, h14, h15,
    h16, h17, h18, h19⟩ := claim2_amended env0 cfg0 w0
  exact ⟨h2, h12, h18, h19 rfl⟩

/-! ## Claim C6 -/

/-- A CLAUDE.md with some existing guidance, and stdin that repeats the
two answers createCoreFiles will ask for. -/
def wWit : World := ⟨[("CLAUDE.md", .text "# Guidelines\n")], ["a", "b", "a", "b"]⟩

/-- Claim C6, counterexample: updateClaudeMd run a second time on the state
left by its first run appends the project-context section again, so
CLAUDE.md differs from the single-run content — the step is not idempotent. -/
theorem claim6_counterexample :
    ¬ stepFilesIdem (updateClaudeMd cfg0) wWit := by
  unfold stepFilesIdem
  decide

/-- The package.json scripts update of setupGitHooks, as a transformation
of the filesystem (setup.ts:1303-1324). -/
def hooksPkgUpdate (cfg : SetupConfig) (fs : FS) : FS :=
  match fsRead fs "package.json" with
  | some (.packageJson pj) =>
      fsWrite fs "package.json" (.packageJson (addLintScripts cfg pj))
  | _ => fs

theorem hookPs_pairwise (cfg : SetupConfig) :
    (hookPs cfg).Pairwise (fun a b => a.1 ≠ b.1) := by
  by_cases hl : cfg.lintingSetup = .eslintPrettier <;>
    simp [hookPs, hl]

theorem hookPs_ne_pkg (cfg : SetupConfig) :
    ∀ pc ∈ hookPs cfg, pc.1 ≠ "package.json" := by
  by_cases hl : cfg.lintingSetup = .eslintPrettier <;>
    simp [hookPs, hl]

theorem fsRead_hooksPkgUpdate_other (cfg : SetupConfig) (fs : FS) (q : String)
    (hq : q ≠ "package.json") :
    fsRead (hooksPkgUpdate cfg fs) q = fsRead fs q := by
  unfold hooksPkgUpdate
  split
  · rw [fsRead_fsWrite_other _ _ _ _ hq]
  · rfl

theorem fsWrites_hooksPkgUpdate (cfg : SetupConfig) (fs : FS) :
    fsWrites (hooksPkgUpdate cfg (fsWrites fs (hookPs cfg))) (hookPs cfg)
      = hooksPkgUpdate cfg (fsWrites fs (hookPs cfg)) := by
  apply fsWrites_id
  intro pc hpc
  obtain ⟨p, c⟩ := pc
  rw [fsRead_hooksPkgUpdate_other cfg _ _ (hookPs_ne_pkg cfg (p, c) hpc)]
  exact fsRead_fsWrites_mem fs _ p c (hookPs_pairwise cfg) hpc

theorem hooksPkgUpdate_idem (cfg : SetupConfig) (fs : FS) :
    hooksPkgUpdate cfg (hooksPkgUpdate cfg fs) = hooksPkgUpdate cfg fs := by
  unfold hooksPkgUpdate
  cases hr : fsRead fs "package.json" with
  | none => simp [hr]
  | some fc =>
    cases fc with
    | text s => simp [hr]
    | packageJson pj =>
      simp only [hr]
      rw [fsRead_fsWrite_self]
      simp [addLintScripts_idem, fsWrite_fsWrite]

theorem setupGitHooks_files (env : Env) (cfg : SetupConfig) (w : World)
    (hg : cfg.gitHooks = true)
    (hc : env.cmdOk (addDevCmd cfg.packageManager ["husky", "lint-staged"]) = true) :
    ((setupGitHooks env cfg w).world).files
      = hooksPkgUpdate cfg (fsWrites w.files (hookPs cfg)) := by
  simp only [setupGitHooks, hg, hc, if_true, wWrites, hooksPkgUpdate]
  cases hr : fsRead (fsWrites w.files (hookPs cfg)) "package.json" with
  | none => simp [hr, StepOut.world]
  | some fc =>
    cases fc with
    | text s => simp [hr, StepOut.world]
    | packageJson pj => simp [hr, StepOut.world, wWrite]

theorem setupGitHooks_filesIdem (env : Env) (cfg : SetupConfig) (w : World) :
    stepFilesIdem (setupGitHooks env cfg) w := by
  by_cases hg : cfg.gitHooks = true
  · by_cases hc : env.cmdOk (addDevCmd cfg.packageManager ["husky", "lint-staged"]) = true
    · unfold stepFilesIdem
      rw [setupGitHooks_files env cfg ((setupGitHooks env cfg w).world) hg hc,
        setupGitHooks_files env cfg w hg hc,
        fsWrites_hooksPkgUpdate, hooksPkgUpdate_idem]
    · apply stepFilesIdem_of_world_id
      intro w'
      simp [setupGitHooks, hg, hc, StepOut.world]
  · apply stepFilesIdem_of_world_id
    intro w'
    simp [setupGitHooks, hg, StepOut.world]

theorem corePs_pairwise (s1 s2 : String) :
    ([("frontend/scripts/utils.js", FileContent.text s1),
      ("frontend/scripts/hooks/core/sectionRegistry.js", FileContent.text s2)]
      : List (String × FileContent)).Pairwise (fun a b => a.1 ≠ b.1) := by
  simp [List.pairwise_cons]

theorem addToml_filesIdem (w : World) : stepFilesIdem addTomlToGitignore w := by
  have htoml : strContains (shopifyFilesBlock ++ "\nshopify.theme.toml")
      "shopify.theme.toml" = true := by decide
  unfold stepFilesIdem addTomlToGitignore
  cases hr : fsRead w.files ".gitignore" with
  | none => simp [hr, StepOut.world]
  | some fc =>
    cases fc with
    | packageJson pj => simp [hr, StepOut.world]
    | text gi =>
      by_cases hc : strContains gi "shopify.theme.toml" = true
      · simp [hr, hc, StepOut.world]
      · have hcf : strContains gi "shopify.theme.toml" = false := by
          simpa using hc
        simp only [hr, hcf, Bool.false_eq_true, if_false, StepOut.world]
        have hread2 : fsRead (wWrite w ".gitignore"
            (.text (replaceFirst gi shopifyFilesBlock
              (shopifyFilesBlock ++ "\nshopify.theme.toml")))).files ".gitignore"
            = some (.text (replaceFirst gi shopifyFilesBlock
              (shopifyFilesBlock ++ "\nshopify.theme.toml"))) := by
          simp only [wWrite]
          exact fsRead_fsWrite_self _ _ _
        rw [hread2]
        cases hf : findSub shopifyFilesBlock.data gi.data with
        | none =>
          have hrc : replaceFirst gi shopifyFilesBlock
              (shopifyFilesBlock ++ "\nshopify.theme.toml") = gi := by
            unfold replaceFirst
            rw [hf]
          rw [hrc]
          simp [hcf, hrc, wWrite, fsWrite_fsWrite, StepOut.world]
        | some i =>
          have hrc2 : strContains (replaceFirst gi shopifyFilesBlock
              (shopifyFilesBlock ++ "\nshopify.theme.toml"))
              "shopify.theme.toml" = true := by
            unfold replaceFirst
            rw [hf]
            exact strContains_of_middle _ _ _ _ htoml
          simp [hrc2, StepOut.world]

theorem updateClaudeMd_world (cfg : SetupConfig) (w : World) (c : String)
    (hcl : fsRead w.files "CLAUDE.md" = some (.text c)) :
    (updateClaudeMd cfg w).world
      = wWrite w "CLAUDE.md" (.text (c ++ projectContextContent cfg)) := by
  unfold updateClaudeMd
  rw [hcl]
  rfl

/-- Claim C6 (amended): every setup step except updateClaudeMd is
idempotent up to overwriting — running it a second time on the state left
by its first run yields the same file contents — where createCoreFiles is
idempotent provided the user answers its two extra prompts identically on
both runs; updateClaudeMd instead appends its project-context section again
on every run. -/
theorem claim6_amended (env : Env) (cfg : SetupConfig) (w : World) :
    stepFilesIdem (createPackageJson cfg) w
  ∧ stepFilesIdem (installDependencies env cfg) w
  ∧ stepFilesIdem createDirectoryStructure w
  ∧ stepFilesIdem (createViteConfig cfg) w
  ∧ stepFilesIdem (createPostCSSConfig cfg) w
  ∧ stepFilesIdem createGitIgnore w
  ∧ stepFilesIdem createShopifyIgnore w
  ∧ stepFilesIdem (createGitHubWorkflow cfg) w
  ∧ stepFilesIdem (createEntrypoints cfg) w
  ∧ (∀ (a b : String) (t : List String), w.stdin = a :: b :: a :: b :: t →
      stepFilesIdem createCoreFiles w)
  ∧ stepFilesIdem (createShopifyThemeToml cfg) w
  ∧ stepFilesIdem (setupLinting env cfg) w
  ∧ stepFilesIdem (setupGitHooks env cfg) w
  ∧ stepFilesIdem (pullShopifyTheme env cfg) w
  ∧ stepFilesIdem (runInitialBuild env cfg) w
  ∧ stepFilesIdem (initializeGit env) w
  ∧ stepFilesIdem addTomlToGitignore w
  ∧ stepFilesIdem (displayNextSteps cfg) w
  ∧ (∀ c, fsRead w.files "CLAUDE.md" = some (.text c) →
      fsRead ((updateClaudeMd cfg w).world).files "CLAUDE.md"
        = some (.text (c ++ projectContextContent cfg)) ∧
      fsRead ((updateClaudeMd cfg ((updateClaudeMd cfg w).world)).world).files
          "CLAUDE.md"
        = some (.text (c ++ projectContextContent cfg ++ projectContextContent cfg))) := by
  refine ⟨?_, ?_, ?_, ?_, ?_, ?_, ?_, ?_, ?_, ?_, ?_, ?_,
    setupGitHooks_filesIdem env cfg w, ?_, ?_, ?_, addToml_filesIdem w, ?_, ?_⟩
  · exact writeStep_filesIdem _ (by simp) w
  · apply stepFilesIdem_of_world_id
    intro w'
    simp only [installDependencies]
    split <;> rfl
  · exact writeStep_filesIdem _ (by decide) w
  · exact writeStep_filesIdem _ (by simp) w
  · exact writeStep_filesIdem _ (by simp) w
  · exact writeStep_filesIdem _ (by simp) w
  · exact writeStep_filesIdem _ (by simp) w
  · exact writeStep_filesIdem _ (by simp) w
  · apply stepFilesIdem_of_world_id
    intro w'
    rfl
  · intro a b t ht
    unfold stepFilesIdem createCoreFiles
    rw [ht]
    simp only [promptC, wWrites, StepOut.world]
    exact fsWrites_idem _ _ (corePs_pairwise _ _)
  · simp only [createShopifyThemeToml]
    cases cfg.tomlApproach
    · exact writeStep_filesIdem _ (by simp) w
    · exact writeStep_filesIdem _ (by simp) w
    · exact writeStep_filesIdem _ (by simp) w
  · unfold stepFilesIdem setupLinting
    cases cfg.lintingSetup
    · by_cases hc : env.cmdOk (addDevCmd cfg.packageManager (lintDeps cfg)) = true
      · simp only [if_pos hc]
        exact writeStep_filesIdem _ (by simp [List.pairwise_cons]) w
      · simp only [if_neg hc, StepOut.world]
    · exact writeStep_filesIdem _ (by simp) w
    · rfl
  · apply stepFilesIdem_of_world_id
    intro w'
    simp only [pullShopifyTheme]
    split
    · rfl
    · split <;> rfl
  · apply stepFilesIdem_of_world_id
    intro w'
    simp only [runInitialBuild]
    split <;> rfl
  · apply stepFilesIdem_of_world_id
    intro w'
    simp only [initializeGit]
    split
    · rfl
    · split <;> rfl
  · apply stepFilesIdem_of_world_id
    intro w'
    rfl
  · intro c hcl
    have h1 := updateClaudeMd_world cfg w c hcl
    have h2 : fsRead ((updateClaudeMd cfg w).world).files "CLAUDE.md"
        = some (.text (c ++ projectContextContent cfg)) := by
      rw [h1]
      simp only [wWrite]
      exact fsRead_fsWrite_self _ _ _
    have h3 := updateClaudeMd_world cfg ((updateClaudeMd cfg w).world) _ h2
    refine ⟨h2, ?_⟩
    rw [h3]
    simp only [wWrite]
    exact fsRead_fsWrite_self _ _ _

/-- Claim C6 amended, witness: at `cfg0` on a world with a CLAUDE.md and
repeating stdin, createGitIgnore and createCoreFiles are idempotent and
updateClaudeMd appends its section twice over two runs. -/
theorem claim6_amended_witness :
    stepFilesIdem createGitIgnore wWit
  ∧ stepFilesIdem createCoreFiles wWit
  ∧ fsRead ((updateClaudeMd cfg0 ((updateClaudeMd cfg0 wWit).world)).world).files
        "CLAUDE.md"
      = some (.text ("# Guidelines\n" ++ projectContextContent cfg0
          ++ projectContextContent cfg0)) := by
  obtain ⟨h1, h2, h3, h4, h5, h6, h7, h8, h9, h10, h11, h12, h13, h14, h15,
    h16, h17, h18, h19⟩ := claim6_amended env0 cfg0 wWit
  exact ⟨h6, h10 "a" "b" [] rfl, (h19 "# Guidelines\n" rfl).2⟩

end ShopifySetup
